import Mathlib

/-!
# Verification of the MasterStack MCP tool-invocation runtime

Shallow embedding of the tool dispatch code of the MCP servers in
`mcp-servers/virtualization/server.py`, `mcp-servers/homeautomation/server.py`,
`mcp-servers/network/server.py` and of the text transformation in
`fix_servers.py`, together with theorems settling the specification claims
about them.

Conventions of the embedding:
* Python JSON-shaped values (dict / list / str / int / bool / None) are the
  inductive `Json`; upstream HTTP interactions are an oracle argument, so the
  pure dispatch logic is translated directly from the source.
* A Python exception in flight is the `Except String` error case carrying
  `str(e)`; the `try ... except` boundary at the end of each `call_tool`
  converts it into the uniform error result, which is where the spec's
  `is_error = true` results are produced.
* Each embedded adapter invocation is recorded in a trace list, so "the
  backend adapter body was never invoked" is the trace being empty.
-/

set_option autoImplicit false
set_option maxRecDepth 4096
set_option linter.unusedVariables false
set_option linter.unreachableTactic false
set_option linter.unnecessarySeqFocus false
set_option linter.unusedTactic false

namespace MasterStack

/-- JSON-shaped values as passed in MCP tool arguments and returned by the
backend HTTP APIs (Python dict / list / str / int / bool / None). Numbers are
modelled as integers: every number the claims touch is integral. -/
inductive Json where
  | null : Json
  | bool : Bool → Json
  | num : Int → Json
  | str : String → Json
  | arr : List Json → Json
  | obj : List (String × Json) → Json

/-- Python `str()` / f-string rendering of a value, as used when argument
values are interpolated into reply strings and URLs. The renderings of
containers abbreviate CPython's `repr`; no claim inspects them. -/
def Json.render : Json → String
  | .null => "None"
  | .bool true => "True"
  | .bool false => "False"
  | .num n => toString n
  | .str s => s
  | .arr _ => "[...]"
  | .obj _ => "\x7b...\x7d"

/-- Python truthiness of a JSON-shaped value. -/
def Json.truthy : Json → Bool
  | .null => false
  | .bool b => b
  | .num n => n != 0
  | .str s => !s.isEmpty
  | .arr xs => !xs.isEmpty
  | .obj fs => !fs.isEmpty

/-- Python `d.get(k, default)` on a decoded JSON value. A non-dict receiver
would raise `AttributeError` in Python; that is the error case here. -/
def Json.getD (j : Json) (k : String) (d : Json) : Except String Json :=
  match j with
  | .obj fields => .ok ((fields.lookup k).getD d)
  | _ => .error ("\x27get\x27 requires a JSON object")

/-- Pure variant of `Json.getD` used where the source consumes well-formed
entity dictionaries; a non-dict receiver (which Python would fault on) yields
the default. -/
def Json.getDP (j : Json) (k : String) (d : Json) : Json :=
  match j with
  | .obj fields => (fields.lookup k).getD d
  | _ => d

/-- Iterating a decoded JSON value as a Python list. -/
def Json.asList : Json → Except String (List Json)
  | .arr xs => .ok xs
  | _ => .error "value is not a list"

/-- Python `.items()` of a decoded JSON dict. -/
def Json.asObj : Json → Except String (List (String × Json))
  | .obj fs => .ok fs
  | _ => .error "value is not an object"

/-- Numeric reading used by the arithmetic in the summary strings
(`node.get(\x27cpu\x27, 0) * 100` and friends). Python booleans are 1/0 in
arithmetic; a non-numeric value would raise `TypeError`, unreachable in the
claims. -/
def Json.toIntD : Json → Int
  | .num n => n
  | .bool true => 1
  | .bool false => 0
  | _ => 0

/-- Approximation of the CPython f-string `:.1f` formatting of `x / d` for the
integral payloads modelled here (one decimal digit, truncating division in
place of float rounding; no claim inspects these digits). -/
def fmtDiv1 (x d : Int) : String :=
  let t := x * 10 / d
  toString (t / 10) ++ "." ++ toString ((t % 10).natAbs)

/-- Bytes in a gibibyte, the `1024**3` divisor of the memory summaries. -/
def gib : Int := 1024 ^ 3

/-- One MCP text content block. -/
structure TextContent where
  type : String
  text : String
  deriving DecidableEq

/-- Shorthand for the `TextContent(type="text", text=...)` constructions. -/
def textC (s : String) : TextContent := ⟨"text", s⟩

/-- Uniform tool-call result shape of the spec. `is_error` is true exactly for
results produced by the dispatcher's final `except` boundary (the
`return [TextContent(type="text", text=f"Error: ...")]` clause). -/
structure CallResult where
  content : List TextContent
  is_error : Bool
  deriving DecidableEq

/-- One property of a declared tool input schema. -/
structure PropSpec where
  type : String
  description : String
  defaultVal : Option Json

/-- A declared tool input schema. -/
structure SchemaDef where
  type : String
  properties : List (String × PropSpec)
  required : List String

/-- One registered tool: name, description and declared input schema. -/
structure ToolDef where
  name : String
  description : String
  inputSchema : SchemaDef

/-- A tool-call argument mapping. -/
abbrev Args := List (String × Json)

/-- Python `arguments[k]`: raises `KeyError(k)` when the key is absent, and
`str` of a `KeyError` is the quoted key. -/
def argsGet (args : Args) (k : String) : Except String Json :=
  match args.lookup k with
  | some v => .ok v
  | none => .error ("\x27" ++ k ++ "\x27")

/-- Python `arguments.get(k, d)`. -/
def argsGetD (args : Args) (k : String) (d : Json) : Json :=
  (args.lookup k).getD d

/-! ## Virtualization server (`mcp-servers/virtualization/server.py`)

The Proxmox backend adapter (`ProxmoxClient`) issues one upstream HTTP request
per method; the outcome of each method is supplied by a `ProxOracle`, and each
time the dispatcher invokes a method a `ProxCall` is recorded. -/

/-- The eight tool declarations returned by `list_tools`
(virtualization/server.py:122-253), in registration order. -/
def toolListNodes : ToolDef :=
  ⟨"list_nodes", "List all Proxmox nodes in the cluster", ⟨"object", [], []⟩⟩

def nodeProp : PropSpec := ⟨"string", "Proxmox node name", none⟩

def vmidProp : PropSpec := ⟨"integer", "VM ID", none⟩

def toolListVms : ToolDef :=
  ⟨"list_vms", "List all virtual machines on a node",
    ⟨"object", [("node", nodeProp)], ["node"]⟩⟩

def toolListContainers : ToolDef :=
  ⟨"list_containers", "List all LXC containers on a node",
    ⟨"object", [("node", nodeProp)], ["node"]⟩⟩

def toolStartVm : ToolDef :=
  ⟨"start_vm", "Start a virtual machine",
    ⟨"object", [("node", nodeProp), ("vmid", vmidProp)], ["node", "vmid"]⟩⟩

def toolStopVm : ToolDef :=
  ⟨"stop_vm", "Stop a virtual machine",
    ⟨"object", [("node", nodeProp), ("vmid", vmidProp)], ["node", "vmid"]⟩⟩

def toolRebootVm : ToolDef :=
  ⟨"reboot_vm", "Reboot a virtual machine",
    ⟨"object", [("node", nodeProp), ("vmid", vmidProp)], ["node", "vmid"]⟩⟩

def toolVmStatus : ToolDef :=
  ⟨"vm_status", "Get current status of a virtual machine",
    ⟨"object", [("node", nodeProp), ("vmid", vmidProp)], ["node", "vmid"]⟩⟩

def toolCreateSnapshot : ToolDef :=
  ⟨"create_snapshot", "Create a snapshot of a virtual machine",
    ⟨"object",
      [("node", nodeProp), ("vmid", vmidProp),
       ("snapname", ⟨"string", "Snapshot name", none⟩)],
      ["node", "vmid", "snapname"]⟩⟩

/-- `list_tools` of the virtualization server: the fixed registration-order
sequence of tools. -/
def toolsVirt : List ToolDef :=
  [toolListNodes, toolListVms, toolListContainers, toolStartVm, toolStopVm,
   toolRebootVm, toolVmStatus, toolCreateSnapshot]

/-- The pure `list_tools` entry point (an async function returning the literal
list on every invocation). -/
def listToolsVirt : Unit → List ToolDef := fun _ => toolsVirt

/-- Outcomes of the `ProxmoxClient` adapter methods, supplied by the upstream
world: each field is the `response.json()` of the method's HTTP request, or
the message of the exception the method raises. -/
structure ProxOracle where
  get_nodes : Except String Json
  get_vms : Json → Except String Json
  get_containers : Json → Except String Json
  start_vm : Json → Json → Except String Json
  stop_vm : Json → Json → Except String Json
  reboot_vm : Json → Json → Except String Json
  vm_status : Json → Json → Except String Json
  create_snapshot : Json → Json → Json → Except String Json

/-- Record of one invoked `ProxmoxClient` adapter method (the code that issues
the upstream HTTP request). -/
inductive ProxCall where
  | get_nodes
  | get_vms (node : Json)
  | get_containers (node : Json)
  | start_vm (node vmid : Json)
  | stop_vm (node vmid : Json)
  | reboot_vm (node vmid : Json)
  | vm_status (node vmid : Json)
  | create_snapshot (node vmid snapname : Json)

/-- One line group of the `list_nodes` summary loop. -/
def nodeLine (acc : String) (node : Json) : Except String String := do
  let nm ← node.getD "node" (Json.str "Unknown")
  let st ← node.getD "status" (Json.str "N/A")
  let cpu ← node.getD "cpu" (Json.num 0)
  let mem ← node.getD "mem" (Json.num 0)
  let maxmem ← node.getD "maxmem" (Json.num 0)
  pure (acc ++ "- " ++ nm.render ++ "\n  Status: " ++ st.render ++
    "\n  CPU: " ++ fmtDiv1 (cpu.toIntD * 100) 1 ++ "%" ++
    "\n  Memory: " ++ fmtDiv1 mem.toIntD gib ++ "GB / " ++
    fmtDiv1 maxmem.toIntD gib ++ "GB\n\n")

/-- The `list_nodes` summary string (virtualization/server.py:262-269). -/
def nodesSummary (result : Json) : Except String String := do
  let data ← result.getD "data" (Json.arr [])
  let nodes ← data.asList
  nodes.foldlM nodeLine ("Found " ++ toString nodes.length ++ " Proxmox nodes:\n\n")

/-- One line group of the `list_vms` summary loop. -/
def vmLine (acc : String) (vm : Json) : Except String String := do
  let vmid ← vm.getD "vmid" (Json.str "N/A")
  let nm ← vm.getD "name" (Json.str "Unknown")
  let st ← vm.getD "status" (Json.str "N/A")
  let cpus ← vm.getD "cpus" (Json.num 0)
  let maxmem ← vm.getD "maxmem" (Json.num 0)
  pure (acc ++ "- VM " ++ vmid.render ++ ": " ++ nm.render ++
    "\n  Status: " ++ st.render ++ "\n  CPU: " ++ cpus.render ++
    " cores\n  Memory: " ++ fmtDiv1 maxmem.toIntD gib ++ "GB\n\n")

/-- The `list_vms` summary string (virtualization/server.py:274-281). -/
def vmsSummary (node : Json) (result : Json) : Except String String := do
  let data ← result.getD "data" (Json.arr [])
  let vms ← data.asList
  vms.foldlM vmLine
    ("Found " ++ toString vms.length ++ " VMs on node " ++ node.render ++ ":\n\n")

/-- One line group of the `list_containers` summary loop. -/
def ctLine (acc : String) (ct : Json) : Except String String := do
  let vmid ← ct.getD "vmid" (Json.str "N/A")
  let nm ← ct.getD "name" (Json.str "Unknown")
  let st ← ct.getD "status" (Json.str "N/A")
  let cpus ← ct.getD "cpus" (Json.num 0)
  let maxmem ← ct.getD "maxmem" (Json.num 0)
  pure (acc ++ "- CT " ++ vmid.render ++ ": " ++ nm.render ++
    "\n  Status: " ++ st.render ++ "\n  CPU: " ++ cpus.render ++
    " cores\n  Memory: " ++ fmtDiv1 maxmem.toIntD gib ++ "GB\n\n")

/-- The `list_containers` summary string (virtualization/server.py:286-293). -/
def containersSummary (node : Json) (result : Json) : Except String String := do
  let data ← result.getD "data" (Json.arr [])
  let cts ← data.asList
  cts.foldlM ctLine
    ("Found " ++ toString cts.length ++ " containers on node " ++ node.render ++ ":\n\n")

/-- The `vm_status` summary string (virtualization/server.py:317-323). -/
def vmStatusSummary (vmid : Json) (result : Json) : Except String String := do
  let data ← result.getD "data" (Json.obj [])
  let st ← data.getD "status" (Json.str "N/A")
  let cpu ← data.getD "cpu" (Json.num 0)
  let mem ← data.getD "mem" (Json.num 0)
  let maxmem ← data.getD "maxmem" (Json.num 0)
  let uptime ← data.getD "uptime" (Json.num 0)
  pure ("VM " ++ vmid.render ++ " Status:\n  Status: " ++ st.render ++
    "\n  CPU: " ++ fmtDiv1 (cpu.toIntD * 100) 1 ++ "%\n  Memory: " ++
    fmtDiv1 mem.toIntD gib ++ "GB / " ++ fmtDiv1 maxmem.toIntD gib ++
    "GB\n  Uptime: " ++ uptime.render ++ "s\n")

/-- The body of the virtualization `call_tool` dispatcher inside its `try`
block (virtualization/server.py:255-333): result of the dispatched branch
together with the trace of invoked adapter methods. -/
def callToolVirtRun (o : ProxOracle) (name : String) (args : Args) :
    Except String (List TextContent) × List ProxCall :=
  if name = "list_nodes" then
    match o.get_nodes with
    | .error e => (.error e, [.get_nodes])
    | .ok result =>
      match nodesSummary result with
      | .error e => (.error e, [.get_nodes])
      | .ok s => (.ok [textC s], [.get_nodes])
  else if name = "list_vms" then
    match argsGet args "node" with
    | .error e => (.error e, [])
    | .ok node =>
      match o.get_vms node with
      | .error e => (.error e, [.get_vms node])
      | .ok result =>
        match vmsSummary node result with
        | .error e => (.error e, [.get_vms node])
        | .ok s => (.ok [textC s], [.get_vms node])
  else if name = "list_containers" then
    match argsGet args "node" with
    | .error e => (.error e, [])
    | .ok node =>
      match o.get_containers node with
      | .error e => (.error e, [.get_containers node])
      | .ok result =>
        match containersSummary node result with
        | .error e => (.error e, [.get_containers node])
        | .ok s => (.ok [textC s], [.get_containers node])
  else if name = "start_vm" then
    match argsGet args "node" with
    | .error e => (.error e, [])
    | .ok node =>
      match argsGet args "vmid" with
      | .error e => (.error e, [])
      | .ok vmid =>
        match o.start_vm node vmid with
        | .error e => (.error e, [.start_vm node vmid])
        | .ok _ =>
          (.ok [textC ("VM " ++ vmid.render ++ " on node " ++ node.render ++
            " is starting")], [.start_vm node vmid])
  else if name = "stop_vm" then
    match argsGet args "node" with
    | .error e => (.error e, [])
    | .ok node =>
      match argsGet args "vmid" with
      | .error e => (.error e, [])
      | .ok vmid =>
        match o.stop_vm node vmid with
        | .error e => (.error e, [.stop_vm node vmid])
        | .ok _ =>
          (.ok [textC ("VM " ++ vmid.render ++ " on node " ++ node.render ++
            " is stopping")], [.stop_vm node vmid])
  else if name = "reboot_vm" then
    match argsGet args "node" with
    | .error e => (.error e, [])
    | .ok node =>
      match argsGet args "vmid" with
      | .error e => (.error e, [])
      | .ok vmid =>
        match o.reboot_vm node vmid with
        | .error e => (.error e, [.reboot_vm node vmid])
        | .ok _ =>
          (.ok [textC ("VM " ++ vmid.render ++ " on node " ++ node.render ++
            " is rebooting")], [.reboot_vm node vmid])
  else if name = "vm_status" then
    match argsGet args "node" with
    | .error e => (.error e, [])
    | .ok node =>
      match argsGet args "vmid" with
      | .error e => (.error e, [])
      | .ok vmid =>
        match o.vm_status node vmid with
        | .error e => (.error e, [.vm_status node vmid])
        | .ok result =>
          match vmStatusSummary vmid result with
          | .error e => (.error e, [.vm_status node vmid])
          | .ok s => (.ok [textC s], [.vm_status node vmid])
  else if name = "create_snapshot" then
    match argsGet args "node" with
    | .error e => (.error e, [])
    | .ok node =>
      match argsGet args "vmid" with
      | .error e => (.error e, [])
      | .ok vmid =>
        match argsGet args "snapname" with
        | .error e => (.error e, [])
        | .ok snapname =>
          match o.create_snapshot node vmid snapname with
          | .error e => (.error e, [.create_snapshot node vmid snapname])
          | .ok _ =>
            (.ok [textC ("Snapshot \x27" ++ snapname.render ++
              "\x27 created for VM " ++ vmid.render)],
              [.create_snapshot node vmid snapname])
  else
    (.ok [textC ("Unknown tool: " ++ name)], [])

/-- The virtualization `call_tool` dispatcher with its enclosing
`try ... except` boundary (virtualization/server.py:255-337): any exception is
converted into the error result `Error: str(e)`. -/
def callToolVirt (o : ProxOracle) (name : String) (args : Args) :
    CallResult × List ProxCall :=
  match callToolVirtRun o name args with
  | (.ok content, tr) => (⟨content, false⟩, tr)
  | (.error e, tr) => (⟨[textC ("Error: " ++ e)], true⟩, tr)

/-! ## Home-automation server (`mcp-servers/homeautomation/server.py`)

The Home Assistant backend adapter (`HomeAssistantClient`) is an oracle for
its four HTTP-issuing methods; `trigger_automation` is the client-side wrapper
that calls `call_service`. -/

/-- The seven tool declarations returned by `list_tools`
(homeautomation/server.py:81-177), in registration order. -/
def toolListEntities : ToolDef :=
  ⟨"list_entities", "List all Home Assistant entities",
    ⟨"object",
      [("domain",
        ⟨"string", "Filter by domain (e.g., \x27light\x27, \x27switch\x27, \x27sensor\x27)", none⟩)],
      []⟩⟩

def toolGetEntityState : ToolDef :=
  ⟨"get_entity_state", "Get the current state of a specific entity",
    ⟨"object",
      [("entity_id", ⟨"string", "Entity ID (e.g., \x27light.living_room\x27)", none⟩)],
      ["entity_id"]⟩⟩

def toolTurnOn : ToolDef :=
  ⟨"turn_on", "Turn on a light, switch, or other device",
    ⟨"object", [("entity_id", ⟨"string", "Entity ID to turn on", none⟩)],
      ["entity_id"]⟩⟩

def toolTurnOff : ToolDef :=
  ⟨"turn_off", "Turn off a light, switch, or other device",
    ⟨"object", [("entity_id", ⟨"string", "Entity ID to turn off", none⟩)],
      ["entity_id"]⟩⟩

def toolSetTemperature : ToolDef :=
  ⟨"set_temperature", "Set temperature for climate devices",
    ⟨"object",
      [("entity_id", ⟨"string", "Climate entity ID", none⟩),
       ("temperature", ⟨"number", "Target temperature", none⟩)],
      ["entity_id", "temperature"]⟩⟩

def toolTriggerAutomation : ToolDef :=
  ⟨"trigger_automation", "Trigger a Home Assistant automation",
    ⟨"object", [("automation_id", ⟨"string", "Automation entity ID", none⟩)],
      ["automation_id"]⟩⟩

def toolListServices : ToolDef :=
  ⟨"list_services", "List all available Home Assistant services",
    ⟨"object", [], []⟩⟩

/-- `list_tools` of the home-automation server. -/
def toolsHA : List ToolDef :=
  [toolListEntities, toolGetEntityState, toolTurnOn, toolTurnOff,
   toolSetTemperature, toolTriggerAutomation, toolListServices]

/-- Outcomes of the `HomeAssistantClient` adapter methods. -/
structure HAOracle where
  get_states : Except String Json
  get_entity_state : Json → Except String Json
  call_service : String → String → Json → Except String Json
  get_services : Except String Json

/-- Record of one invoked `HomeAssistantClient` adapter method. -/
inductive HACall where
  | get_states
  | get_entity_state (entity_id : Json)
  | call_service (domain : String) (service : String) (data : Json)
  | get_services

/-- The domain-filter list comprehension of `list_entities`
(homeautomation/server.py:188-189): keep states whose `entity_id` starts with
`f"{domain_filter}."`. A non-string `entity_id` (a Python fault) never
matches. -/
def entityMatches (df : Json) (s : Json) : Bool :=
  match s.getDP "entity_id" (Json.str "") with
  | .str eid => eid.startsWith (df.render ++ ".")
  | _ => false

/-- `if domain_filter:` — the filter applies only to truthy filters. -/
def filterEntities (df : Json) (states : List Json) : List Json :=
  if df.truthy then states.filter (entityMatches df) else states

/-- One line group of the `list_entities` summary loop
(homeautomation/server.py:192-197). -/
def entityLine (acc : String) (s : Json) : String :=
  let eid := s.getDP "entity_id" (Json.str "Unknown")
  let st := s.getDP "state" (Json.str "N/A")
  let fname := (s.getDP "attributes" (Json.obj [])).getDP "friendly_name" eid
  acc ++ "- " ++ eid.render ++ ": " ++ st.render ++
    "\n  Name: " ++ fname.render ++ "\n\n"

/-- The `list_entities` text summary (homeautomation/server.py:186-201): the
domain filter, the `Found {len(states)} entities` header, the loop over
`states[:50]`, and the `... and {len(states) - 50} more entities` tail when
more than 50 matched. -/
def listEntitiesSummary (states : List Json) (df : Json) : String :=
  let sts := filterEntities df states
  let base := "Found " ++ toString sts.length ++ " entities:\n\n"
  let s1 := (sts.take 50).foldl entityLine base
  if 50 < sts.length then
    s1 ++ ("\n... and " ++ toString (sts.length - 50) ++ " more entities")
  else s1

/-- The `get_entity_state` summary (homeautomation/server.py:207-213). -/
def entityStateSummary (eid : Json) (state : Json) : Except String String := do
  let st ← state.getD "state" (Json.str "N/A")
  let lc ← state.getD "last_changed" (Json.str "N/A")
  let attrs ← state.getD "attributes" (Json.obj [])
  let fs ← attrs.asObj
  pure (fs.foldl (fun acc kv => acc ++ "  " ++ kv.1 ++ ": " ++ kv.2.render ++ "\n")
    ("Entity: " ++ eid.render ++ "\nState: " ++ st.render ++
     "\nLast Changed: " ++ lc.render ++ "\nAttributes:\n"))

/-- Python `entity_id.split(".")[0]`, defined on strings (a non-string would
raise in Python). -/
def domainOf (s : String) : String := ((s.splitOn ".").headD "")

/-- The `list_services` summary (homeautomation/server.py:242-249). -/
def servicesSummary (services : Json) : Except String String := do
  let fs ← services.asObj
  fs.foldlM
    (fun acc kv => do
      let inner ← kv.2.asObj
      pure ((inner.foldl (fun a kv2 => a ++ "  - " ++ kv2.1 ++ "\n")
        (acc ++ "Domain: " ++ kv.1 ++ "\n")) ++ "\n"))
    "Available Services:\n\n"

/-- The body of the home-automation `call_tool` dispatcher inside its `try`
block (homeautomation/server.py:179-252). -/
def callToolHARun (o : HAOracle) (name : String) (args : Args) :
    Except String (List TextContent) × List HACall :=
  if name = "list_entities" then
    match o.get_states with
    | .error e => (.error e, [.get_states])
    | .ok statesJ =>
      match statesJ.asList with
      | .error e => (.error e, [.get_states])
      | .ok states =>
        (.ok [textC (listEntitiesSummary states (argsGetD args "domain" Json.null))],
          [.get_states])
  else if name = "get_entity_state" then
    match argsGet args "entity_id" with
    | .error e => (.error e, [])
    | .ok eid =>
      match o.get_entity_state eid with
      | .error e => (.error e, [.get_entity_state eid])
      | .ok state =>
        match entityStateSummary eid state with
        | .error e => (.error e, [.get_entity_state eid])
        | .ok s => (.ok [textC s], [.get_entity_state eid])
  else if name = "turn_on" then
    match argsGet args "entity_id" with
    | .error e => (.error e, [])
    | .ok eid =>
      match eid with
      | .str eids =>
        match o.call_service (domainOf eids) "turn_on" (Json.obj [("entity_id", eid)]) with
        | .error e =>
          (.error e, [.call_service (domainOf eids) "turn_on" (Json.obj [("entity_id", eid)])])
        | .ok _ =>
          (.ok [textC (eid.render ++ " has been turned on")],
            [.call_service (domainOf eids) "turn_on" (Json.obj [("entity_id", eid)])])
      | _ => (.error "split requires a str", [])
  else if name = "turn_off" then
    match argsGet args "entity_id" with
    | .error e => (.error e, [])
    | .ok eid =>
      match eid with
      | .str eids =>
        match o.call_service (domainOf eids) "turn_off" (Json.obj [("entity_id", eid)]) with
        | .error e =>
          (.error e, [.call_service (domainOf eids) "turn_off" (Json.obj [("entity_id", eid)])])
        | .ok _ =>
          (.ok [textC (eid.render ++ " has been turned off")],
            [.call_service (domainOf eids) "turn_off" (Json.obj [("entity_id", eid)])])
      | _ => (.error "split requires a str", [])
  else if name = "set_temperature" then
    match argsGet args "entity_id" with
    | .error e => (.error e, [])
    | .ok eid =>
      match argsGet args "temperature" with
      | .error e => (.error e, [])
      | .ok temp =>
        match o.call_service "climate" "set_temperature"
            (Json.obj [("entity_id", eid), ("temperature", temp)]) with
        | .error e =>
          (.error e, [.call_service "climate" "set_temperature"
            (Json.obj [("entity_id", eid), ("temperature", temp)])])
        | .ok _ =>
          (.ok [textC ("Temperature set to " ++ temp.render ++ "°C for " ++ eid.render)],
            [.call_service "climate" "set_temperature"
              (Json.obj [("entity_id", eid), ("temperature", temp)])])
  else if name = "trigger_automation" then
    match argsGet args "automation_id" with
    | .error e => (.error e, [])
    | .ok aid =>
      match o.call_service "automation" "trigger" (Json.obj [("entity_id", aid)]) with
      | .error e =>
        (.error e, [.call_service "automation" "trigger" (Json.obj [("entity_id", aid)])])
      | .ok _ =>
        (.ok [textC ("Automation " ++ aid.render ++ " has been triggered")],
          [.call_service "automation" "trigger" (Json.obj [("entity_id", aid)])])
  else if name = "list_services" then
    match o.get_services with
    | .error e => (.error e, [.get_services])
    | .ok services =>
      match servicesSummary services with
      | .error e => (.error e, [.get_services])
      | .ok s => (.ok [textC s], [.get_services])
  else
    (.ok [textC ("Unknown tool: " ++ name)], [])

/-- The home-automation `call_tool` dispatcher with its `try ... except`
boundary (homeautomation/server.py:179-256). -/
def callToolHA (o : HAOracle) (name : String) (args : Args) :
    CallResult × List HACall :=
  match callToolHARun o name args with
  | (.ok content, tr) => (⟨content, false⟩, tr)
  | (.error e, tr) => (⟨[textC ("Error: " ++ e)], true⟩, tr)

/-! ## Network server (`mcp-servers/network/server.py`)

The Unifi controller is reached through raw HTTP requests; a `NetOracle` maps
each issued request to a response or a raised transport error, so the
`UnifiClient` methods — including the cookie state that `login` mutates — are
translated directly. Traces record every upstream request issued. -/

/-- Cookie jar captured from the login response. -/
abbrev Cookies := List (String × String)

/-- One upstream HTTP request as issued by `UnifiClient`. -/
structure HttpReq where
  method : String
  url : String
  body : Option Json
  cookies : Option Cookies

/-- One upstream HTTP response. -/
structure HttpResp where
  status : Nat
  respCookies : Cookies
  body : Json

/-- The upstream world: each request either raises (a transport error message)
or yields a response. -/
def NetOracle := HttpReq → Except String HttpResp

/-- The `UnifiClient` connection configuration, read from the environment at
module load (network/server.py:26-30). -/
structure UnifiCfg where
  baseUrl : String
  username : String
  password : String

/-- `str(e)` stand-in for the `httpx.HTTPStatusError` that
`raise_for_status()` raises on a 4xx/5xx response. -/
def httpStatusMsg (s : Nat) : String := "HTTP status error " ++ toString s

/-- The login request (network/server.py:45-49). -/
def loginReq (cfg : UnifiCfg) : HttpReq :=
  ⟨"POST", cfg.baseUrl ++ "/api/login",
    some (Json.obj [("username", Json.str cfg.username),
                    ("password", Json.str cfg.password)]),
    none⟩

/-- `UnifiClient.login` (network/server.py:42-55): POSTs the credentials; on
success stores the response cookies and returns `True`; on any exception —
transport error or `raise_for_status` — logs and returns `False`, leaving the
cookie state unchanged. Returns (result, new cookie state, issued requests). -/
def unifiLogin (o : NetOracle) (cfg : UnifiCfg) (st : Option Cookies) :
    Bool × Option Cookies × List HttpReq :=
  match o (loginReq cfg) with
  | .error _ => (false, st, [loginReq cfg])
  | .ok resp =>
    if 400 ≤ resp.status then (false, st, [loginReq cfg])
    else (true, some resp.respCookies, [loginReq cfg])

/-- Common shape of the six `UnifiClient` API methods
(network/server.py:57-124): `await self.login(client)` (result ignored), then
the method's own request with the current cookies, then `raise_for_status()`
and `response.json()`. -/
def unifiOp (o : NetOracle) (cfg : UnifiCfg) (st : Option Cookies)
    (mk : Option Cookies → HttpReq) :
    Except String Json × Option Cookies × List HttpReq :=
  match unifiLogin o cfg st with
  | (_, st2, t1) =>
    let req := mk st2
    match o req with
    | .error e => (.error e, st2, t1 ++ [req])
    | .ok resp =>
      if 400 ≤ resp.status then (.error (httpStatusMsg resp.status), st2, t1 ++ [req])
      else (.ok resp.body, st2, t1 ++ [req])

/-- The request of `UnifiClient.get_devices`. -/
def devicesReq (cfg : UnifiCfg) (site : String) (c : Option Cookies) : HttpReq :=
  ⟨"GET", cfg.baseUrl ++ "/api/s/" ++ site ++ "/stat/device", none, c⟩

/-- `UnifiClient.get_devices` (network/server.py:57-66). -/
def unifiGetDevices (o : NetOracle) (cfg : UnifiCfg) (st : Option Cookies) (site : String) :
    Except String Json × Option Cookies × List HttpReq :=
  unifiOp o cfg st (devicesReq cfg site)

/-- The request of `UnifiClient.get_clients`. -/
def clientsReq (cfg : UnifiCfg) (site : String) (c : Option Cookies) : HttpReq :=
  ⟨"GET", cfg.baseUrl ++ "/api/s/" ++ site ++ "/stat/sta", none, c⟩

/-- `UnifiClient.get_clients` (network/server.py:68-77). -/
def unifiGetClients (o : NetOracle) (cfg : UnifiCfg) (st : Option Cookies) (site : String) :
    Except String Json × Option Cookies × List HttpReq :=
  unifiOp o cfg st (clientsReq cfg site)

/-- The request of `UnifiClient.block_client`. -/
def blockReq (cfg : UnifiCfg) (mac : Json) (site : String) (c : Option Cookies) : HttpReq :=
  ⟨"POST", cfg.baseUrl ++ "/api/s/" ++ site ++ "/cmd/stamgr",
    some (Json.obj [("cmd", Json.str "block-sta"), ("mac", mac)]), c⟩

/-- `UnifiClient.block_client` (network/server.py:79-89). -/
def unifiBlockClient (o : NetOracle) (cfg : UnifiCfg) (st : Option Cookies)
    (mac : Json) (site : String) :
    Except String Json × Option Cookies × List HttpReq :=
  unifiOp o cfg st (blockReq cfg mac site)

/-- The request of `UnifiClient.unblock_client`. -/
def unblockReq (cfg : UnifiCfg) (mac : Json) (site : String) (c : Option Cookies) : HttpReq :=
  ⟨"POST", cfg.baseUrl ++ "/api/s/" ++ site ++ "/cmd/stamgr",
    some (Json.obj [("cmd", Json.str "unblock-sta"), ("mac", mac)]), c⟩

/-- `UnifiClient.unblock_client` (network/server.py:91-101). -/
def unifiUnblockClient (o : NetOracle) (cfg : UnifiCfg) (st : Option Cookies)
    (mac : Json) (site : String) :
    Except String Json × Option Cookies × List HttpReq :=
  unifiOp o cfg st (unblockReq cfg mac site)

/-- The request of `UnifiClient.restart_device`. -/
def restartReq (cfg : UnifiCfg) (mac : Json) (site : String) (c : Option Cookies) : HttpReq :=
  ⟨"POST", cfg.baseUrl ++ "/api/s/" ++ site ++ "/cmd/devmgr",
    some (Json.obj [("cmd", Json.str "restart"), ("mac", mac)]), c⟩

/-- `UnifiClient.restart_device` (network/server.py:103-113). -/
def unifiRestartDevice (o : NetOracle) (cfg : UnifiCfg) (st : Option Cookies)
    (mac : Json) (site : String) :
    Except String Json × Option Cookies × List HttpReq :=
  unifiOp o cfg st (restartReq cfg mac site)

/-- The request of `UnifiClient.get_wlans`. -/
def wlansReq (cfg : UnifiCfg) (site : String) (c : Option Cookies) : HttpReq :=
  ⟨"GET", cfg.baseUrl ++ "/api/s/" ++ site ++ "/rest/wlanconf", none, c⟩

/-- `UnifiClient.get_wlans` (network/server.py:115-124). -/
def unifiGetWlans (o : NetOracle) (cfg : UnifiCfg) (st : Option Cookies) (site : String) :
    Except String Json × Option Cookies × List HttpReq :=
  unifiOp o cfg st (wlansReq cfg site)

/-- The six tool declarations returned by `list_tools`
(network/server.py:130-233), in registration order. -/
def siteProp : PropSpec :=
  ⟨"string", "Unifi site name (default: \x27default\x27)", some (Json.str "default")⟩

def toolNetListDevices : ToolDef :=
  ⟨"list_devices", "List all Unifi network devices (APs, switches, gateways)",
    ⟨"object", [("site", siteProp)], []⟩⟩

def toolNetListClients : ToolDef :=
  ⟨"list_clients", "List all connected network clients",
    ⟨"object", [("site", siteProp)], []⟩⟩

def toolNetBlockClient : ToolDef :=
  ⟨"block_client", "Block a client from the network by MAC address",
    ⟨"object",
      [("mac", ⟨"string", "MAC address of the client to block", none⟩),
       ("site", siteProp)],
      ["mac"]⟩⟩

def toolNetUnblockClient : ToolDef :=
  ⟨"unblock_client", "Unblock a previously blocked client by MAC address",
    ⟨"object",
      [("mac", ⟨"string", "MAC address of the client to unblock", none⟩),
       ("site", siteProp)],
      ["mac"]⟩⟩

def toolNetRestartDevice : ToolDef :=
  ⟨"restart_device", "Restart a Unifi network device by MAC address",
    ⟨"object",
      [("mac", ⟨"string", "MAC address of the device to restart", none⟩),
       ("site", siteProp)],
      ["mac"]⟩⟩

def toolNetListWlans : ToolDef :=
  ⟨"list_wlans", "List all wireless network (WLAN) configurations",
    ⟨"object", [("site", siteProp)], []⟩⟩

/-- `list_tools` of the network server. -/
def toolsNet : List ToolDef :=
  [toolNetListDevices, toolNetListClients, toolNetBlockClient,
   toolNetUnblockClient, toolNetRestartDevice, toolNetListWlans]

/-- The pure `list_tools` entry point of the network server. -/
def listToolsNet : Unit → List ToolDef := fun _ => toolsNet

/-- One line group of the `list_devices` summary loop
(network/server.py:246-251). -/
def deviceLine (acc : String) (device : Json) : Except String String := do
  let nm ← device.getD "name" (Json.str "Unknown")
  let ty ← device.getD "type" (Json.str "N/A")
  let mac ← device.getD "mac" (Json.str "N/A")
  let ip ← device.getD "ip" (Json.str "N/A")
  let model ← device.getD "model" (Json.str "N/A")
  let st ← device.getD "state" (Json.str "N/A")
  pure (acc ++ "- " ++ nm.render ++ " (" ++ ty.render ++ ")\n  MAC: " ++
    mac.render ++ "\n  IP: " ++ ip.render ++ "\n  Model: " ++ model.render ++
    "\n  Status: " ++ st.render ++ "\n\n")

/-- The `list_devices` summary (network/server.py:244-251). -/
def netDevicesSummary (result : Json) : Except String String := do
  let data ← result.getD "data" (Json.arr [])
  let devices ← data.asList
  devices.foldlM deviceLine
    ("Found " ++ toString devices.length ++ " network devices:\n\n")

/-- One line group of the `list_clients` summary loop
(network/server.py:258-262). -/
def clientLine (acc : String) (cl : Json) : Except String String := do
  let hn ← cl.getD "hostname" (Json.str "Unknown")
  let mac ← cl.getD "mac" (Json.str "N/A")
  let ip ← cl.getD "ip" (Json.str "N/A")
  let signal ← cl.getD "signal" (Json.str "N/A")
  let apMac ← cl.getD "ap_mac" (Json.str "N/A")
  pure (acc ++ "- " ++ hn.render ++ " (" ++ mac.render ++ ")\n  IP: " ++
    ip.render ++ "\n  Signal: " ++ signal.render ++ " dBm\n  Connected to: " ++
    apMac.render ++ "\n\n")

/-- The `list_clients` summary (network/server.py:256-262). -/
def netClientsSummary (result : Json) : Except String String := do
  let data ← result.getD "data" (Json.arr [])
  let clients ← data.asList
  clients.foldlM clientLine
    ("Found " ++ toString clients.length ++ " connected clients:\n\n")

/-- One line group of the `list_wlans` summary loop
(network/server.py:284-288). -/
def wlanLine (acc : String) (wlan : Json) : Except String String := do
  let nm ← wlan.getD "name" (Json.str "Unknown")
  let key ← wlan.getD "x_iapp_key" (Json.str "N/A")
  let en ← wlan.getD "enabled" (Json.bool false)
  let sec ← wlan.getD "security" (Json.str "N/A")
  pure (acc ++ "- " ++ nm.render ++ "\n  SSID: " ++ key.render ++
    "\n  Enabled: " ++ en.render ++ "\n  Security: " ++ sec.render ++ "\n\n")

/-- The `list_wlans` summary (network/server.py:282-288). -/
def netWlansSummary (result : Json) : Except String String := do
  let data ← result.getD "data" (Json.arr [])
  let wlans ← data.asList
  wlans.foldlM wlanLine
    ("Found " ++ toString wlans.length ++ " WLAN configurations:\n\n")

/-- The body of the network `call_tool` dispatcher inside its `try` block
(network/server.py:236-292): `site = arguments.get("site", "default")` is read
first, then the tool branches. Returns the branch result, the updated cookie
state of the module-level `unifi` client, and the trace of upstream requests
issued. -/
def callToolNetRun (o : NetOracle) (cfg : UnifiCfg) (st : Option Cookies)
    (name : String) (args : Args) :
    Except String (List TextContent) × Option Cookies × List HttpReq :=
  let site := (argsGetD args "site" (Json.str "default")).render
  if name = "list_devices" then
    match unifiGetDevices o cfg st site with
    | (.error e, st2, tr) => (.error e, st2, tr)
    | (.ok result, st2, tr) =>
      match netDevicesSummary result with
      | .error e => (.error e, st2, tr)
      | .ok s => (.ok [textC s], st2, tr)
  else if name = "list_clients" then
    match unifiGetClients o cfg st site with
    | (.error e, st2, tr) => (.error e, st2, tr)
    | (.ok result, st2, tr) =>
      match netClientsSummary result with
      | .error e => (.error e, st2, tr)
      | .ok s => (.ok [textC s], st2, tr)
  else if name = "block_client" then
    match argsGet args "mac" with
    | .error e => (.error e, st, [])
    | .ok mac =>
      match unifiBlockClient o cfg st mac site with
      | (.error e, st2, tr) => (.error e, st2, tr)
      | (.ok _, st2, tr) =>
        (.ok [textC ("Client " ++ mac.render ++ " has been blocked")], st2, tr)
  else if name = "unblock_client" then
    match argsGet args "mac" with
    | .error e => (.error e, st, [])
    | .ok mac =>
      match unifiUnblockClient o cfg st mac site with
      | (.error e, st2, tr) => (.error e, st2, tr)
      | (.ok _, st2, tr) =>
        (.ok [textC ("Client " ++ mac.render ++ " has been unblocked")], st2, tr)
  else if name = "restart_device" then
    match argsGet args "mac" with
    | .error e => (.error e, st, [])
    | .ok mac =>
      match unifiRestartDevice o cfg st mac site with
      | (.error e, st2, tr) => (.error e, st2, tr)
      | (.ok _, st2, tr) =>
        (.ok [textC ("Device " ++ mac.render ++ " restart initiated")], st2, tr)
  else if name = "list_wlans" then
    match unifiGetWlans o cfg st site with
    | (.error e, st2, tr) => (.error e, st2, tr)
    | (.ok result, st2, tr) =>
      match netWlansSummary result with
      | .error e => (.error e, st2, tr)
      | .ok s => (.ok [textC s], st2, tr)
  else
    (.ok [textC ("Unknown tool: " ++ name)], st, [])

/-- The network `call_tool` dispatcher with its `try ... except` boundary
(network/server.py:236-296). -/
def callToolNet (o : NetOracle) (cfg : UnifiCfg) (st : Option Cookies)
    (name : String) (args : Args) :
    CallResult × Option Cookies × List HttpReq :=
  match callToolNetRun o cfg st name args with
  | (.ok content, st2, tr) => (⟨content, false⟩, st2, tr)
  | (.error e, st2, tr) => (⟨[textC ("Error: " ++ e)], true⟩, st2, tr)

/-- A session of the network server: calls processed in order, threading the
module-level `unifi` cookie state; each call runs against the upstream world
it observed. -/
def sessionRunNet (cfg : UnifiCfg) :
    Option Cookies → List (NetOracle × String × Args) → List CallResult
  | _, [] => []
  | st, (o, n, a) :: rest =>
    match callToolNet o cfg st n a with
    | (r, st2, _) => r :: sessionRunNet cfg st2 rest

/-- The timeout argument of `httpx.AsyncClient(timeout=30.0)` in `call_tool`
(network/server.py:239, virtualization/server.py:259, and identically in the
other servers): the literal 30 seconds, whatever the process environment
holds. -/
def callToolClientTimeout (_env : List (String × String)) : Nat := 30

/-- The route table of the Starlette app built by `create_app`
(network/server.py:308-316): the paths and handler names passed to `Route`. -/
def createAppRoutes : List (String × String) :=
  [("/health", "health_check"), ("/sse", "handle_sse")]

/-- The client-to-server message path that `handle_sse` advertises by
constructing `SseServerTransport("/messages")` (network/server.py:304). -/
def sseMessagesPath : String := "/messages"

/-! ## `fix_servers.py` — the server-file text transformation

`fix_server` edits a server file's text in three steps: it deletes every
occurrence of the stdio import line (`str.replace`), splices the HTTP/SSE
block of HTTP/SSE imports after `from mcp.server import Server` unless the
JSONResponse line is already present, and substitutes the HTTP/SSE template for the
`async def main(): ... asyncio.run(main())` region (`re.sub`, non-greedy,
DOTALL). Text is modelled as `List Char`; the string functions below follow
CPython's semantics for non-empty patterns: occurrences are located in the
text being scanned, left to right, non-overlapping, and replacements are not
rescanned. -/

/-- Does `pat` occur at the head of `s`? -/
def listStartsWith (pat : List Char) : List Char → Bool
  | s =>
    match pat, s with
    | [], _ => true
    | _ :: _, [] => false
    | p :: ps, c :: cs => p == c && listStartsWith ps cs

/-- Index of the first occurrence of `pat` in `s`. -/
def firstOcc (pat : List Char) : List Char → Option Nat
  | [] => if pat.isEmpty then some 0 else none
  | c :: rest =>
    if listStartsWith pat (c :: rest) then some 0
    else (firstOcc pat rest).map (· + 1)

/-- Python `pat in s`. -/
def containsSub (pat : List Char) (s : List Char) : Bool :=
  (firstOcc pat s).isSome

/-- Python `s.replace(pat, repl)` for a non-empty `pat`: every occurrence,
scanned left to right without overlap, is replaced; replacements are not
rescanned. (For `pat = []` this is the identity; Python's distinct
empty-pattern behaviour is never exercised.) -/
def replaceAll (pat repl : List Char) : List Char → List Char
  | [] => []
  | c :: rest =>
    if h : pat ≠ [] ∧ listStartsWith pat (c :: rest) = true then
      repl ++ replaceAll pat repl ((c :: rest).drop pat.length)
    else
      c :: replaceAll pat repl rest
termination_by s => s.length
decreasing_by
· have hp : 0 < pat.length := List.length_pos.mpr h.1
  simp only [List.length_drop, List.length_cons]
  omega
· simp only [List.length_cons]
  omega

/-- Leftmost, shortest match of the pattern
`async def main\(\):.*?asyncio\.run\(main\(\)\)` under `re.DOTALL`: the
earliest position where `opener` occurs and some occurrence of `closer`
starts at or after its end; the match extends to the end of the earliest such
`closer`. Returns (start, end-exclusive) offsets. -/
def findMainMatch (opener closer : List Char) : List Char → Option (Nat × Nat)
  | [] => none
  | c :: rest =>
    if listStartsWith opener (c :: rest) then
      match firstOcc closer ((c :: rest).drop opener.length) with
      | some k => some (0, opener.length + k + closer.length)
      | none => none
    else (findMainMatch opener closer rest).map (fun p => (p.1 + 1, p.2 + 1))

theorem findMainMatch_pos (opener closer : List Char) (hop : opener ≠ []) :
    ∀ (s : List Char) (i e : Nat), findMainMatch opener closer s = some (i, e) →
      0 < e ∧ s ≠ [] := by
  intro s
  induction s with
  | nil => intro i e h; simp [findMainMatch] at h
  | cons c rest ih =>
    intro i e h
    refine ⟨?_, by simp⟩
    rw [findMainMatch] at h
    by_cases hs : listStartsWith opener (c :: rest) = true
    · rw [if_pos hs] at h
      cases hocc : firstOcc closer ((c :: rest).drop opener.length) with
      | none => rw [hocc] at h; exact absurd h (by simp)
      | some k =>
        rw [hocc] at h
        simp only [Option.some.injEq, Prod.mk.injEq] at h
        have : 0 < opener.length := List.length_pos.mpr hop
        omega
    · rw [if_neg hs] at h
      cases hrec : findMainMatch opener closer rest with
      | none => rw [hrec] at h; exact absurd h (by simp)
      | some p =>
        rw [hrec] at h
        simp only [Option.map_some', Option.some.injEq, Prod.mk.injEq] at h
        omega

/-- The opener literal of the main-block pattern. -/
def mainOpener : List Char := "async def main():".toList

/-- The closer literal of the main-block pattern. -/
def mainCloser : List Char := "asyncio.run(main())".toList

theorem mainOpener_ne_nil : mainOpener ≠ [] := by decide

/-- Python `re.sub` of the main-block pattern: each non-overlapping match,
scanned left to right, is replaced by `template`; scanning resumes after the
match and does not revisit the replacement. -/
def subMainAll (template : List Char) (s : List Char) : List Char :=
  match h : findMainMatch mainOpener mainCloser s with
  | none => s
  | some (i, e) => s.take i ++ template ++ subMainAll template (s.drop e)
termination_by s.length
decreasing_by
have hp := findMainMatch_pos mainOpener mainCloser mainOpener_ne_nil s i e h
simp only [List.length_drop]
have : 0 < s.length := List.length_pos.mpr hp.2
omega

/-- The stdio import line deleted by fix_server (fix_servers.py:80). -/
def stdioLine : List Char := "from mcp.server.stdio import stdio_server\n".toList

/-- The guard text of the import splice (fix_servers.py:81). -/
def jsonImport : List Char := "from fastapi.responses import JSONResponse".toList

/-- The anchor of the import splice (fix_servers.py:83). -/
def serverImport : List Char := "from mcp.server import Server".toList

/-- The replacement block of the import splice (fix_servers.py:84). -/
def importsBlock : List Char :=
  ("from mcp.server import Server\nfrom fastapi.responses import JSONResponse" ++
   "\nimport uvicorn\nfrom starlette.applications import Starlette\n" ++
   "from starlette.routing import Route\n" ++
   "from mcp.server.sse import SseServerTransport").toList

/-- `MAIN_TEMPLATE.strip()` (fix_servers.py:32-55): the HTTP/SSE main block
substituted for the stdio main block. -/
def mainTemplate : List Char :=
  ("async def health_check(request):\n    \"\"\"Health check endpoint\"\"\"\n" ++
   "    return JSONResponse(\x7b\"status\": \"healthy\"\x7d)\n\n" ++
   "async def handle_sse(request):\n    \"\"\"Handle SSE connections for MCP\"\"\"\n" ++
   "    transport = SseServerTransport(\"/messages\")\n" ++
   "    async with transport.connect_sse(request.scope, request.receive, request._send)" ++
   " as (read_stream, write_stream):\n" ++
   "        await app.run(read_stream, write_stream, app.create_initialization_options())\n\n" ++
   "def create_app():\n    \"\"\"Create Starlette app\"\"\"\n    return Starlette(\n" ++
   "        debug=True,\n        routes=[\n            Route(\"/health\", health_check),\n" ++
   "            Route(\"/sse\", handle_sse),\n        ],\n    )\n\n" ++
   "if __name__ == \"__main__\":\n" ++
   "    logger.info(\"Starting MCP Server on port 8000\")\n" ++
   "    uvicorn.run(create_app(), host=\"0.0.0.0\", port=8000)").toList

/-- The `server.py` content transformation of `fix_server`
(fix_servers.py:77-93): stdio import removal, conditional import splice, and
main-block substitution guarded by `re.search`. -/
def fixContent (s : List Char) : List Char :=
  let s1 := replaceAll stdioLine [] s
  let s2 := if containsSub jsonImport s1 then s1
            else replaceAll serverImport importsBlock s1
  if (findMainMatch mainOpener mainCloser s2).isSome then subMainAll mainTemplate s2
  else s2

/-- If `pat` does not occur in `s`, `replaceAll` leaves `s` unchanged. -/
theorem replaceAll_of_not_contains (pat repl : List Char) :
    ∀ s : List Char, containsSub pat s = false → replaceAll pat repl s = s := by
  intro s
  induction s with
  | nil => intro _; rw [replaceAll]
  | cons c rest ih =>
    intro h
    rw [containsSub, firstOcc] at h
    by_cases hs : listStartsWith pat (c :: rest) = true
    · rw [if_pos hs] at h; simp at h
    · rw [if_neg hs] at h
      rw [replaceAll, dif_neg (fun hc => hs hc.2)]
      have hrest : containsSub pat rest = false := by
        rw [containsSub]
        cases hr : firstOcc pat rest with
        | none => rfl
        | some k => rw [hr] at h; simp at h
      rw [ih hrest]

/-! ## Shared lemmas -/

/-- A result text of the dispatcher error boundary is never empty. -/
theorem errText_ne_empty (e : String) : ("Error: " ++ e) ≠ "" := by
  intro h
  have hl := congrArg String.length h
  rw [String.length_append] at hl
  have h7 : "Error: ".length = 7 := rfl
  have h0 : "".length = 0 := rfl
  rw [h7, h0] at hl
  omega

/-- If `y` is already free of the three rewrite targets, the `fix_server`
text transformation leaves it unchanged. -/
theorem fixContent_fixed (y : List Char)
    (h1 : containsSub stdioLine y = false)
    (h2 : containsSub jsonImport y = true ∨ containsSub serverImport y = false)
    (h3 : findMainMatch mainOpener mainCloser y = none) :
    fixContent y = y := by
  have e1 : replaceAll stdioLine [] y = y := replaceAll_of_not_contains _ _ _ h1
  have e2cond : (if containsSub jsonImport y = true then y
                 else replaceAll serverImport importsBlock y) = y := by
    rcases h2 with h2 | h2
    · simp [h2]
    · have e2 := replaceAll_of_not_contains serverImport importsBlock y h2
      by_cases hj : containsSub jsonImport y = true
      · simp [hj]
      · simp [hj, e2]
  simp only [fixContent, e1, e2cond, h3]
  simp

/-! ## Claim theorems -/

set_option maxHeartbeats 1600000 in
/-- **C4** (code_bug evidence). The claim says the HTTP-mode runtime exposes a
`POST /messages` client-to-server endpoint alongside `GET /sse`. The code does
not: the Starlette app built by `create_app` (network/server.py:308-316)
routes only `/health` and `/sse`, and the `MAIN_TEMPLATE` that `fix_servers.py`
splices into the other servers routes the same two paths — even though
`handle_sse` constructs `SseServerTransport("/messages")`, which advertises
`/messages` to the connected client as the path to POST call envelopes to. A
POST to `/messages` therefore has no handler. -/
theorem claim_C4 :
    createAppRoutes.lookup "/messages" = none
  ∧ createAppRoutes.map Prod.fst = ["/health", "/sse"]
  ∧ sseMessagesPath = "/messages"
  ∧ containsSub ("SseServerTransport(\"/messages\")").toList mainTemplate = true
  ∧ containsSub ("Route(\"/health\"").toList mainTemplate = true
  ∧ containsSub ("Route(\"/sse\"").toList mainTemplate = true
  ∧ containsSub ("Route(\"/messages\"").toList mainTemplate = false
  ∧ containsSub ("/messages".toList) ("/health".toList) = false
  ∧ containsSub ("/messages".toList) ("/sse".toList) = false :=
  ⟨rfl, rfl, rfl, by decide, by decide, by decide, by decide, by decide, by decide⟩

/-- **C5**. `tools/list` of the virtualization and network servers is pure and
returns each registered tool exactly once, in registration order, with its
declaration unchanged: the returned sequence is the declared registry itself,
its names are the declared ordered names, they are pairwise distinct, every
name occurs at most once, and repeated invocations return equal sequences. -/
theorem claim_C5 :
    listToolsVirt () = toolsVirt
  ∧ toolsVirt.map ToolDef.name
      = ["list_nodes", "list_vms", "list_containers", "start_vm", "stop_vm",
         "reboot_vm", "vm_status", "create_snapshot"]
  ∧ (toolsVirt.map ToolDef.name).Nodup
  ∧ (∀ n : String, (toolsVirt.map ToolDef.name).count n ≤ 1)
  ∧ (∀ u v : Unit, listToolsVirt u = listToolsVirt v)
  ∧ listToolsNet () = toolsNet
  ∧ toolsNet.map ToolDef.name
      = ["list_devices", "list_clients", "block_client", "unblock_client",
         "restart_device", "list_wlans"]
  ∧ (toolsNet.map ToolDef.name).Nodup
  ∧ (∀ n : String, (toolsNet.map ToolDef.name).count n ≤ 1)
  ∧ (∀ u v : Unit, listToolsNet u = listToolsNet v) := by
  refine ⟨rfl, by decide, by decide, ?_, fun _ _ => rfl, rfl, by decide, by decide,
    ?_, fun _ _ => rfl⟩
  · exact fun n => List.nodup_iff_count_le_one.mp (by decide) n
  · exact fun n => List.nodup_iff_count_le_one.mp (by decide) n

/-- A content on which the `fix_server` transformation is not idempotent:
deleting the embedded stdio-import line joins its surroundings into a fresh
copy of that very line, which only the second application deletes. -/
def fixBadInput : List Char :=
  ("from mcp.server" ++ "from mcp.server.stdio import stdio_server\n" ++
   ".stdio import stdio_server\n").toList

unseal replaceAll subMainAll

set_option maxHeartbeats 1600000 in
/-- **C10** (counterexample). The transformation of `fix_server` is not
idempotent for every input: on `fixBadInput` one application yields exactly
the stdio import line (`str.replace` scans the original text only, so the
occurrence created at the deletion seam survives), and the second application
deletes it, yielding the empty text. -/
theorem claim_C10_counterexample :
    fixContent (fixContent fixBadInput) ≠ fixContent fixBadInput
  ∧ fixContent fixBadInput = stdioLine
  ∧ fixContent (fixContent fixBadInput) = [] := by
  refine ⟨by decide, by decide, by decide⟩

/-- **C10** (amended). The `fix_server` text transformation is idempotent for
every input whose once-transformed text contains no stdio import line, either
contains the JSONResponse import or lacks the `from mcp.server import Server`
anchor, and contains no remaining `async def main(): ... asyncio.run(main())`
region — the guards then make the second application a no-op. (The
counterexample shows the first condition can fail on adversarial inputs.) -/
theorem claim_C10 (x : List Char)
    (h1 : containsSub stdioLine (fixContent x) = false)
    (h2 : containsSub jsonImport (fixContent x) = true ∨
          containsSub serverImport (fixContent x) = false)
    (h3 : findMainMatch mainOpener mainCloser (fixContent x) = none) :
    fixContent (fixContent x) = fixContent x :=
  fixContent_fixed (fixContent x) h1 h2 h3

/-- A server file of the shape `fix_server` is applied to: the stdio import
line, an `async def main()` block and the `asyncio.run(main())` footer (with
the JSONResponse import already present, as after the import splice). -/
def fixGoodInput : List Char :=
  ("from mcp.server import Server\nfrom fastapi.responses import JSONResponse\n" ++
   "from mcp.server.stdio import stdio_server\n\nasync def main():\n    pass\n\n" ++
   "asyncio.run(main())\n").toList

set_option maxHeartbeats 3200000 in
set_option maxRecDepth 7000 in
/-- Witness for C10: a concrete server-file content satisfying the three
hypotheses, on which the transformation is idempotent. -/
theorem claim_C10_witness :
    containsSub stdioLine (fixContent fixGoodInput) = false
  ∧ containsSub jsonImport (fixContent fixGoodInput) = true
  ∧ findMainMatch mainOpener mainCloser (fixContent fixGoodInput) = none
  ∧ fixContent (fixContent fixGoodInput) = fixContent fixGoodInput :=
  ⟨by decide, by decide, by decide,
   claim_C10 fixGoodInput (by decide) (Or.inl (by decide)) (by decide)⟩

/-- If a key is absent from the first list, lookup passes to the second. -/
theorem lookup_append_none {β : Type} (k : String) (l1 l2 : List (String × β))
    (h : l1.lookup k = none) : (l1 ++ l2).lookup k = l2.lookup k := by
  induction l1 with
  | nil => simp
  | cons p rest ih =>
    obtain ⟨a, b⟩ := p
    simp only [List.lookup] at h
    cases hka : (k == a) with
    | true =>
      simp only [hka] at h
      exact Option.noConfusion h
    | false =>
      simp only [hka] at h
      simp only [List.cons_append, List.lookup, hka]
      exact ih h

/-- Appending an entry for a different key does not change a lookup. -/
theorem lookup_append_singleton_ne {β : Type} (k k2 : String) (v : β)
    (l : List (String × β)) (hne : (k == k2) = false) :
    (l ++ [(k2, v)]).lookup k = l.lookup k := by
  induction l with
  | nil => simp [List.lookup, hne]
  | cons p rest ih =>
    obtain ⟨a, b⟩ := p
    cases hka : (k == a) with
    | true => simp only [List.cons_append, List.lookup, hka]
    | false =>
      simp only [List.cons_append, List.lookup, hka]
      exact ih

/-- **C7**. For every network tool (indeed for every dispatched name), calling
with `"site"` absent from the arguments produces the same result — content,
cookie state and issued requests — as calling with `"site"` explicitly bound
to `"default"`: the dispatcher reads
`site = arguments.get("site", "default")` and never reads `"site"` again. -/
theorem claim_C7 (o : NetOracle) (cfg : UnifiCfg) (st : Option Cookies)
    (name : String) (args : Args) (h : args.lookup "site" = none) :
    callToolNet o cfg st name args
      = callToolNet o cfg st name (args ++ [("site", Json.str "default")]) := by
  have h1 : argsGetD (args ++ [("site", Json.str "default")]) "site" (Json.str "default")
      = argsGetD args "site" (Json.str "default") := by
    rw [argsGetD, argsGetD, lookup_append_none _ _ _ h, h]
    simp [List.lookup]
  have h2 : argsGet (args ++ [("site", Json.str "default")]) "mac" = argsGet args "mac" := by
    rw [argsGet, argsGet, lookup_append_singleton_ne "mac" "site" _ args rfl]
  simp only [callToolNet, callToolNetRun, h1, h2]

/-- Witness for C7: a concrete `block_client` call without `"site"` equals the
same call with `"site" = "default"` appended. -/
theorem claim_C7_witness :
    ([(("mac" : String), Json.str "aa:bb:cc:dd:ee:ff")] : Args).lookup "site" = none
  ∧ callToolNet (fun _ => Except.error "down") ⟨"https://unifi.local", "admin", "pw"⟩
      none "block_client" [("mac", Json.str "aa:bb:cc:dd:ee:ff")]
    = callToolNet (fun _ => Except.error "down") ⟨"https://unifi.local", "admin", "pw"⟩
      none "block_client"
      ([("mac", Json.str "aa:bb:cc:dd:ee:ff")] ++ [("site", Json.str "default")]) :=
  ⟨rfl, claim_C7 (fun _ => Except.error "down") ⟨"https://unifi.local", "admin", "pw"⟩
      none "block_client" [("mac", Json.str "aa:bb:cc:dd:ee:ff")] rfl⟩

/-- The two-call session helper: when the first call leaves the cookie state
unchanged, a two-call session is the two calls run from the same state. -/
theorem sessionRunNet_pair (cfg : UnifiCfg) (st : Option Cookies)
    (o : NetOracle) (n : String) (a : Args)
    (o2 : NetOracle) (n2 : String) (a2 : Args)
    (hst : (callToolNet o cfg st n a).2.1 = st) :
    sessionRunNet cfg st [(o, n, a), (o2, n2, a2)]
      = [(callToolNet o cfg st n a).1, (callToolNet o2 cfg st n2 a2).1] := by
  rcases hcall : callToolNet o cfg st n a with ⟨r, st2, tr⟩
  have hst2 : st2 = st := by rw [hcall] at hst; exact hst
  rcases hcall2 : callToolNet o2 cfg st n2 a2 with ⟨r2, st3, tr2⟩
  simp only [sessionRunNet, hcall, hcall2, hst2]

/-- **C3** (counterexample). Dispatching the unregistered name `not_a_tool`
does return a single text block identifying the tool as unknown and containing
the name, but with `isError` false, not true as claimed: the `else` branch of
`call_tool` (network/server.py:291-292) returns the diagnostic as an ordinary
result, bypassing the error boundary. -/
theorem claim_C3_counterexample :
    (callToolNet (fun _ => Except.error "unreachable")
        ⟨"https://unifi.local", "admin", "pw"⟩ none "not_a_tool" []).1
      = ⟨[textC "Unknown tool: not_a_tool"], false⟩ := rfl

/-- **C3** (amended). Dispatching a name outside the registered tools returns
the single text block `Unknown tool: {name}` — identifying the tool and
containing the unrecognized name — as an ordinary result with `isError`
*false*; no upstream request is issued, the cookie state is unchanged, and the
session stays open: a subsequent call behaves exactly as if dispatched fresh
from the same state. -/
theorem claim_C3 (o : NetOracle) (cfg : UnifiCfg) (st : Option Cookies)
    (name : String) (args : Args) (h : name ∉ toolsNet.map ToolDef.name) :
    callToolNet o cfg st name args
      = (⟨[textC ("Unknown tool: " ++ name)], false⟩, st, [])
  ∧ ∀ (o2 : NetOracle) (n2 : String) (a2 : Args),
      sessionRunNet cfg st [(o, name, args), (o2, n2, a2)]
        = [⟨[textC ("Unknown tool: " ++ name)], false⟩,
           (callToolNet o2 cfg st n2 a2).1] := by
  simp only [toolsNet, toolNetListDevices, toolNetListClients, toolNetBlockClient,
    toolNetUnblockClient, toolNetRestartDevice, toolNetListWlans, List.map_cons,
    List.map_nil, List.mem_cons, List.not_mem_nil, or_false, not_or] at h
  obtain ⟨n1, n2', n3, n4, n5, n6⟩ := h
  have hmain : callToolNet o cfg st name args
      = (⟨[textC ("Unknown tool: " ++ name)], false⟩, st, []) := by
    simp only [callToolNet, callToolNetRun, if_neg n1, if_neg n2', if_neg n3,
      if_neg n4, if_neg n5, if_neg n6]
  refine ⟨hmain, fun o2 nn aa => ?_⟩
  rw [sessionRunNet_pair cfg st o name args o2 nn aa (by rw [hmain])]
  rw [hmain]

/-- Witness for C3: the unregistered name `bogus` followed by a registered
call. -/
theorem claim_C3_witness :
    ("bogus" ∉ toolsNet.map ToolDef.name)
  ∧ callToolNet (fun _ => Except.error "down") ⟨"https://unifi.local", "admin", "pw"⟩
      none "bogus" [] = (⟨[textC "Unknown tool: bogus"], false⟩, none, [])
  ∧ sessionRunNet ⟨"https://unifi.local", "admin", "pw"⟩ none
      [(fun _ => Except.error "down", "bogus", []),
       (fun _ => Except.error "down", "list_devices", [])]
      = [⟨[textC "Unknown tool: bogus"], false⟩,
         (callToolNet (fun _ => Except.error "down")
           ⟨"https://unifi.local", "admin", "pw"⟩ none "list_devices" []).1] := by
  have h : ("bogus" : String) ∉ toolsNet.map ToolDef.name := by decide
  have hc := claim_C3 (fun _ => Except.error "down")
    ⟨"https://unifi.local", "admin", "pw"⟩ none "bogus" [] h
  exact ⟨h, hc.1, hc.2 _ _ _⟩

/-- Failed authentication: the login POST raises, or returns an HTTP error
status (so `raise_for_status` raises inside `login`'s `try`). -/
def loginFails (o : NetOracle) (cfg : UnifiCfg) : Prop :=
  (∃ m, o (loginReq cfg) = .error m) ∨
  (∃ resp, o (loginReq cfg) = .ok resp ∧ 400 ≤ resp.status)

/-- Under failed authentication, `login` returns `False` and leaves the cookie
state unchanged. -/
theorem unifiLogin_of_fails (o : NetOracle) (cfg : UnifiCfg) (st : Option Cookies)
    (h : loginFails o cfg) :
    unifiLogin o cfg st = (false, st, [loginReq cfg]) := by
  rcases h with ⟨m, hm⟩ | ⟨resp, hresp, hge⟩
  · rw [unifiLogin, hm]
  · rw [unifiLogin, hresp]
    simp only [if_pos hge]

/-- Under failed authentication, a `UnifiClient` API method still issues its
own upstream request, with the cookie state unchanged. -/
theorem unifiOp_of_loginFails (o : NetOracle) (cfg : UnifiCfg) (st : Option Cookies)
    (mk : Option Cookies → HttpReq) (h : loginFails o cfg) :
    (unifiOp o cfg st mk).2.1 = st ∧ mk st ∈ (unifiOp o cfg st mk).2.2 := by
  rw [unifiOp, unifiLogin_of_fails o cfg st h]
  cases ho : o (mk st) with
  | error e => simp [ho]
  | ok resp =>
    by_cases hge : 400 ≤ resp.status
    · simp [ho, hge]
    · simp [ho, hge]

/-- **C9**. `UnifiClient.login` never raises: its result is the boolean
`True` exactly when the login POST succeeded with a non-error status, and
under any failed authentication it returns `False` with the cookie state
unchanged. Consequently each of the six API methods, run on a fresh client
(no cookies) whose authentication fails, still proceeds to issue its upstream
request — carrying the unauthenticated (`None`) cookie state — instead of
aborting with an authentication error. -/
theorem claim_C9 :
    (∀ (o : NetOracle) (cfg : UnifiCfg) (st : Option Cookies),
       ((unifiLogin o cfg st).1 = true ↔
         ∃ resp, o (loginReq cfg) = .ok resp ∧ resp.status < 400)
     ∧ (loginFails o cfg →
         (unifiLogin o cfg st).1 = false ∧ (unifiLogin o cfg st).2.1 = st))
  ∧ (∀ (o : NetOracle) (cfg : UnifiCfg) (site : String) (mac : Json),
       loginFails o cfg →
         ((unifiGetDevices o cfg none site).2.1 = none
          ∧ devicesReq cfg site none ∈ (unifiGetDevices o cfg none site).2.2)
       ∧ ((unifiGetClients o cfg none site).2.1 = none
          ∧ clientsReq cfg site none ∈ (unifiGetClients o cfg none site).2.2)
       ∧ ((unifiBlockClient o cfg none mac site).2.1 = none
          ∧ blockReq cfg mac site none ∈ (unifiBlockClient o cfg none mac site).2.2)
       ∧ ((unifiUnblockClient o cfg none mac site).2.1 = none
          ∧ unblockReq cfg mac site none ∈ (unifiUnblockClient o cfg none mac site).2.2)
       ∧ ((unifiRestartDevice o cfg none mac site).2.1 = none
          ∧ restartReq cfg mac site none ∈ (unifiRestartDevice o cfg none mac site).2.2)
       ∧ ((unifiGetWlans o cfg none site).2.1 = none
          ∧ wlansReq cfg site none ∈ (unifiGetWlans o cfg none site).2.2)) := by
  constructor
  · intro o cfg st
    constructor
    · rw [unifiLogin]
      cases ho : o (loginReq cfg) with
      | error m =>
        simp only [Bool.false_eq_true, false_iff]
        rintro ⟨resp, hresp, _⟩
        exact Except.noConfusion hresp
      | ok resp =>
        by_cases hge : 400 ≤ resp.status
        · simp only [if_pos hge, Bool.false_eq_true, false_iff]
          rintro ⟨resp2, hresp2, hlt⟩
          cases hresp2
          omega
        · simp only [if_neg hge, true_iff]
          exact ⟨resp, rfl, by omega⟩
    · intro h
      rw [unifiLogin_of_fails o cfg st h]
      exact ⟨rfl, rfl⟩
  · intro o cfg site mac h
    exact ⟨unifiOp_of_loginFails o cfg none _ h, unifiOp_of_loginFails o cfg none _ h,
      unifiOp_of_loginFails o cfg none _ h, unifiOp_of_loginFails o cfg none _ h,
      unifiOp_of_loginFails o cfg none _ h, unifiOp_of_loginFails o cfg none _ h⟩

/-- Witness for C9: an upstream that refuses every connection. -/
theorem claim_C9_witness :
    ((∃ m, (fun (_ : HttpReq) => (Except.error "connection refused" : Except String HttpResp))
        (loginReq ⟨"https://unifi.local", "admin", "pw"⟩) = .error m) ∨
     (∃ resp, (fun (_ : HttpReq) => (Except.error "connection refused" : Except String HttpResp))
        (loginReq ⟨"https://unifi.local", "admin", "pw"⟩) = .ok resp ∧ 400 ≤ resp.status))
  ∧ (unifiLogin (fun _ => Except.error "connection refused")
      ⟨"https://unifi.local", "admin", "pw"⟩ none).1 = false
  ∧ devicesReq ⟨"https://unifi.local", "admin", "pw"⟩ "default" none
      ∈ (unifiGetDevices (fun _ => Except.error "connection refused")
          ⟨"https://unifi.local", "admin", "pw"⟩ none "default").2.2 := by
  have hfail : loginFails (fun _ => Except.error "connection refused")
      ⟨"https://unifi.local", "admin", "pw"⟩ :=
    Or.inl ⟨"connection refused", rfl⟩
  refine ⟨hfail, ?_, ?_⟩
  · exact ((claim_C9.1 (fun _ => Except.error "connection refused")
      ⟨"https://unifi.local", "admin", "pw"⟩ none).2 hfail).1
  · exact ((claim_C9.2 (fun _ => Except.error "connection refused")
      ⟨"https://unifi.local", "admin", "pw"⟩ "default" Json.null hfail).1).2

/-- An upstream world in which every request raises (with a message that may
depend on the request). -/
def netFailOracle (msgOf : HttpReq → String) : NetOracle :=
  fun req => .error (msgOf req)

/-- A Proxmox backend whose every method raises with message `m`. -/
def proxFailOracle (m : String) : ProxOracle :=
  ⟨.error m, fun _ => .error m, fun _ => .error m, fun _ _ => .error m,
   fun _ _ => .error m, fun _ _ => .error m, fun _ _ => .error m,
   fun _ _ _ => .error m⟩

/-- Under an all-raising upstream, a `UnifiClient` method fails with the
message of its own request (the swallowed login failure does not surface),
leaving the cookie state unchanged. -/
theorem unifiOp_netFail (msgOf : HttpReq → String) (cfg : UnifiCfg)
    (st : Option Cookies) (mk : Option Cookies → HttpReq) :
    unifiOp (netFailOracle msgOf) cfg st mk
      = (.error (msgOf (mk st)), st, [loginReq cfg, mk st]) := by
  rw [unifiOp, unifiLogin]
  simp [netFailOracle]

/-- When the dispatched branch raises, `call_tool` returns the error result
`Error: str(e)` — one non-empty text block with `is_error` true. -/
theorem callToolVirt_error_of_run (o : ProxOracle) (name : String) (args : Args)
    (h : ∃ e, (callToolVirtRun o name args).1 = .error e) :
    (callToolVirt o name args).1.is_error = true
  ∧ ∃ t, (callToolVirt o name args).1.content = [textC t] ∧ t ≠ "" := by
  obtain ⟨e, he⟩ := h
  rcases hr : callToolVirtRun o name args with ⟨res, tr⟩
  have he' : res = .error e := by rw [hr] at he; exact he
  subst he'
  rw [callToolVirt, hr]
  exact ⟨rfl, ⟨_, rfl, errText_ne_empty e⟩⟩

/-- Network counterpart of `callToolVirt_error_of_run`. -/
theorem callToolNet_error_of_run (o : NetOracle) (cfg : UnifiCfg)
    (st : Option Cookies) (name : String) (args : Args)
    (h : ∃ e, (callToolNetRun o cfg st name args).1 = .error e) :
    (callToolNet o cfg st name args).1.is_error = true
  ∧ ∃ t, (callToolNet o cfg st name args).1.content = [textC t] ∧ t ≠ "" := by
  obtain ⟨e, he⟩ := h
  rcases hr : callToolNetRun o cfg st name args with ⟨res, st2, tr⟩
  have he' : res = .error e := by rw [hr] at he; exact he
  subst he'
  rw [callToolNet, hr]
  exact ⟨rfl, ⟨_, rfl, errText_ne_empty e⟩⟩

/-- The error boundary preserves the cookie state of the dispatched branch. -/
theorem callToolNet_state_eq (o : NetOracle) (cfg : UnifiCfg)
    (st : Option Cookies) (name : String) (args : Args) :
    (callToolNet o cfg st name args).2.1 = (callToolNetRun o cfg st name args).2.1 := by
  rw [callToolNet]
  rcases hr : callToolNetRun o cfg st name args with ⟨res, st2, tr⟩
  cases res <;> rfl

/-- Under an all-raising upstream, every registered network tool's dispatched
branch raises and the cookie state is unchanged. -/
theorem callToolNetRun_allFail (msgOf : HttpReq → String) (cfg : UnifiCfg)
    (st : Option Cookies) (name : String) (args : Args)
    (h : name ∈ toolsNet.map ToolDef.name) :
    (∃ e, (callToolNetRun (netFailOracle msgOf) cfg st name args).1 = .error e)
  ∧ (callToolNetRun (netFailOracle msgOf) cfg st name args).2.1 = st := by
  simp only [toolsNet, toolNetListDevices, toolNetListClients, toolNetBlockClient,
    toolNetUnblockClient, toolNetRestartDevice, toolNetListWlans, List.map_cons,
    List.map_nil, List.mem_cons, List.not_mem_nil, or_false] at h
  rcases h with rfl | rfl | rfl | rfl | rfl | rfl
  · exact ⟨⟨msgOf (devicesReq cfg (argsGetD args "site" (Json.str "default")).render st),
      by simp [callToolNetRun, unifiGetDevices, unifiOp_netFail]⟩,
      by simp [callToolNetRun, unifiGetDevices, unifiOp_netFail]⟩
  · exact ⟨⟨msgOf (clientsReq cfg (argsGetD args "site" (Json.str "default")).render st),
      by simp [callToolNetRun, unifiGetClients, unifiOp_netFail]⟩,
      by simp [callToolNetRun, unifiGetClients, unifiOp_netFail]⟩
  · cases hm : argsGet args "mac" with
    | error e =>
      exact ⟨⟨e, by simp [callToolNetRun, hm]⟩, by simp [callToolNetRun, hm]⟩
    | ok mac =>
      exact ⟨⟨msgOf (blockReq cfg mac (argsGetD args "site" (Json.str "default")).render st),
        by simp [callToolNetRun, hm, unifiBlockClient, unifiOp_netFail]⟩,
        by simp [callToolNetRun, hm, unifiBlockClient, unifiOp_netFail]⟩
  · cases hm : argsGet args "mac" with
    | error e =>
      exact ⟨⟨e, by simp [callToolNetRun, hm]⟩, by simp [callToolNetRun, hm]⟩
    | ok mac =>
      exact ⟨⟨msgOf (unblockReq cfg mac (argsGetD args "site" (Json.str "default")).render st),
        by simp [callToolNetRun, hm, unifiUnblockClient, unifiOp_netFail]⟩,
        by simp [callToolNetRun, hm, unifiUnblockClient, unifiOp_netFail]⟩
  · cases hm : argsGet args "mac" with
    | error e =>
      exact ⟨⟨e, by simp [callToolNetRun, hm]⟩, by simp [callToolNetRun, hm]⟩
    | ok mac =>
      exact ⟨⟨msgOf (restartReq cfg mac (argsGetD args "site" (Json.str "default")).render st),
        by simp [callToolNetRun, hm, unifiRestartDevice, unifiOp_netFail]⟩,
        by simp [callToolNetRun, hm, unifiRestartDevice, unifiOp_netFail]⟩
  · exact ⟨⟨msgOf (wlansReq cfg (argsGetD args "site" (Json.str "default")).render st),
      by simp [callToolNetRun, unifiGetWlans, unifiOp_netFail]⟩,
      by simp [callToolNetRun, unifiGetWlans, unifiOp_netFail]⟩

/-- Under an all-raising Proxmox backend, every registered virtualization
tool's dispatched branch raises. -/
theorem callToolVirtRun_allFail (m : String) (name : String) (args : Args)
    (h : name ∈ toolsVirt.map ToolDef.name) :
    ∃ e, (callToolVirtRun (proxFailOracle m) name args).1 = .error e := by
  simp only [toolsVirt, toolListNodes, toolListVms, toolListContainers, toolStartVm,
    toolStopVm, toolRebootVm, toolVmStatus, toolCreateSnapshot, List.map_cons,
    List.map_nil, List.mem_cons, List.not_mem_nil, or_false] at h
  rcases h with rfl | rfl | rfl | rfl | rfl | rfl | rfl | rfl
  · exact ⟨m, by simp [callToolVirtRun, proxFailOracle]⟩
  · cases hn : argsGet args "node" with
    | error e => exact ⟨e, by simp [callToolVirtRun, hn]⟩
    | ok node => exact ⟨m, by simp [callToolVirtRun, hn, proxFailOracle]⟩
  · cases hn : argsGet args "node" with
    | error e => exact ⟨e, by simp [callToolVirtRun, hn]⟩
    | ok node => exact ⟨m, by simp [callToolVirtRun, hn, proxFailOracle]⟩
  · cases hn : argsGet args "node" with
    | error e => exact ⟨e, by simp [callToolVirtRun, hn]⟩
    | ok node =>
      cases hv : argsGet args "vmid" with
      | error e => exact ⟨e, by simp [callToolVirtRun, hn, hv]⟩
      | ok vmid => exact ⟨m, by simp [callToolVirtRun, hn, hv, proxFailOracle]⟩
  · cases hn : argsGet args "node" with
    | error e => exact ⟨e, by simp [callToolVirtRun, hn]⟩
    | ok node =>
      cases hv : argsGet args "vmid" with
      | error e => exact ⟨e, by simp [callToolVirtRun, hn, hv]⟩
      | ok vmid => exact ⟨m, by simp [callToolVirtRun, hn, hv, proxFailOracle]⟩
  · cases hn : argsGet args "node" with
    | error e => exact ⟨e, by simp [callToolVirtRun, hn]⟩
    | ok node =>
      cases hv : argsGet args "vmid" with
      | error e => exact ⟨e, by simp [callToolVirtRun, hn, hv]⟩
      | ok vmid => exact ⟨m, by simp [callToolVirtRun, hn, hv, proxFailOracle]⟩
  · cases hn : argsGet args "node" with
    | error e => exact ⟨e, by simp [callToolVirtRun, hn]⟩
    | ok node =>
      cases hv : argsGet args "vmid" with
      | error e => exact ⟨e, by simp [callToolVirtRun, hn, hv]⟩
      | ok vmid => exact ⟨m, by simp [callToolVirtRun, hn, hv, proxFailOracle]⟩
  · cases hn : argsGet args "node" with
    | error e => exact ⟨e, by simp [callToolVirtRun, hn]⟩
    | ok node =>
      cases hv : argsGet args "vmid" with
      | error e => exact ⟨e, by simp [callToolVirtRun, hn, hv]⟩
      | ok vmid =>
        cases hs : argsGet args "snapname" with
        | error e => exact ⟨e, by simp [callToolVirtRun, hn, hv, hs]⟩
        | ok snap => exact ⟨m, by simp [callToolVirtRun, hn, hv, hs, proxFailOracle]⟩

/-- **C2**. For every registered tool name and every argument mapping, if the
backend raises — modelled by an upstream world whose every operation raises —
`call_tool` does not propagate the exception: it returns a result with
`is_error` true carrying exactly one non-empty diagnostic text block; for the
network server the cookie state is unchanged and a subsequent call in the same
session behaves exactly as a fresh dispatch from that state. -/
theorem claim_C2 :
    (∀ (m name : String) (args : Args), name ∈ toolsVirt.map ToolDef.name →
      (callToolVirt (proxFailOracle m) name args).1.is_error = true
      ∧ ∃ t, (callToolVirt (proxFailOracle m) name args).1.content = [textC t] ∧ t ≠ "")
  ∧ (∀ (msgOf : HttpReq → String) (cfg : UnifiCfg) (st : Option Cookies)
      (name : String) (args : Args), name ∈ toolsNet.map ToolDef.name →
      ((callToolNet (netFailOracle msgOf) cfg st name args).1.is_error = true
      ∧ (∃ t, (callToolNet (netFailOracle msgOf) cfg st name args).1.content
            = [textC t] ∧ t ≠ "")
      ∧ (callToolNet (netFailOracle msgOf) cfg st name args).2.1 = st
      ∧ ∀ (o2 : NetOracle) (n2 : String) (a2 : Args),
          sessionRunNet cfg st [(netFailOracle msgOf, name, args), (o2, n2, a2)]
            = [(callToolNet (netFailOracle msgOf) cfg st name args).1,
               (callToolNet o2 cfg st n2 a2).1])) := by
  constructor
  · intro m name args h
    exact callToolVirt_error_of_run _ _ _ (callToolVirtRun_allFail m name args h)
  · intro msgOf cfg st name args h
    obtain ⟨herr, hst⟩ := callToolNetRun_allFail msgOf cfg st name args h
    have hmain := callToolNet_error_of_run _ cfg st name args herr
    have hstate : (callToolNet (netFailOracle msgOf) cfg st name args).2.1 = st := by
      rw [callToolNet_state_eq]; exact hst
    refine ⟨hmain.1, hmain.2, hstate, fun o2 n2 a2 => ?_⟩
    exact sessionRunNet_pair cfg st _ name args o2 n2 a2 hstate

/-- Witness for C2: a raising Proxmox backend on `list_nodes` and a raising
upstream on `list_devices`. -/
theorem claim_C2_witness :
    ("list_nodes" ∈ toolsVirt.map ToolDef.name)
  ∧ (callToolVirt (proxFailOracle "boom") "list_nodes" []).1.is_error = true
  ∧ (∃ t, (callToolVirt (proxFailOracle "boom") "list_nodes" []).1.content
        = [textC t] ∧ t ≠ "")
  ∧ ("list_devices" ∈ toolsNet.map ToolDef.name)
  ∧ (callToolNet (netFailOracle fun _ => "down") ⟨"https://unifi.local", "admin", "pw"⟩
      none "list_devices" []).1.is_error = true := by
  have h1 : ("list_nodes" : String) ∈ toolsVirt.map ToolDef.name := by decide
  have h2 : ("list_devices" : String) ∈ toolsNet.map ToolDef.name := by decide
  have c1 := claim_C2.1 "boom" "list_nodes" [] h1
  have c2 := claim_C2.2 (fun _ => "down") ⟨"https://unifi.local", "admin", "pw"⟩
    none "list_devices" [] h2
  exact ⟨h1, c1.1, c1.2, h2, c2.1⟩

/-- **C6** (counterexample). The per-call deadline is not configurable: the
timeout handed to `httpx.AsyncClient` is the literal `30.0`, so configurations
requesting a different deadline still get 30 seconds. -/
theorem claim_C6_counterexample :
    callToolClientTimeout [("UNIFI_TIMEOUT", "60")] = 30
  ∧ callToolClientTimeout [("MCP_CALL_TIMEOUT", "5")] = 30
  ∧ callToolClientTimeout [] = 30
  ∧ callToolClientTimeout [("UNIFI_TIMEOUT", "60")] ≠ 60 :=
  ⟨rfl, rfl, rfl, by decide⟩

/-- The all-raising upstream whose message mimics an httpx timeout. -/
def timeoutFail : NetOracle := netFailOracle (fun _ => "Request timed out")

/-- **C6** (amended). Each adapter invocation is bounded by a fixed,
hard-coded 30-second deadline — the same whatever the environment holds — and
when the bound is exceeded the raised timeout exception is caught at the
dispatcher boundary: the caller receives an error CallResult with one
non-empty diagnostic block (not a typed `DeadlineExceeded`), the cookie state
is unchanged, and the session processes subsequent calls as fresh
dispatches. -/
theorem claim_C6 :
    (∀ env : List (String × String), callToolClientTimeout env = 30)
  ∧ (∀ (cfg : UnifiCfg) (st : Option Cookies) (name : String) (args : Args),
      name ∈ toolsNet.map ToolDef.name →
      ((callToolNet timeoutFail cfg st name args).1.is_error = true
      ∧ (∃ t, (callToolNet timeoutFail cfg st name args).1.content = [textC t] ∧ t ≠ "")
      ∧ (callToolNet timeoutFail cfg st name args).2.1 = st
      ∧ ∀ (o2 : NetOracle) (n2 : String) (a2 : Args),
          sessionRunNet cfg st [(timeoutFail, name, args), (o2, n2, a2)]
            = [(callToolNet timeoutFail cfg st name args).1,
               (callToolNet o2 cfg st n2 a2).1])) := by
  refine ⟨fun _ => rfl, fun cfg st name args h => ?_⟩
  obtain ⟨herr, hst⟩ := callToolNetRun_allFail (fun _ => "Request timed out")
    cfg st name args h
  have hmain := callToolNet_error_of_run timeoutFail cfg st name args herr
  have hstate : (callToolNet timeoutFail cfg st name args).2.1 = st := by
    rw [callToolNet_state_eq]; exact hst
  refine ⟨hmain.1, hmain.2, hstate, fun o2 n2 a2 => ?_⟩
  exact sessionRunNet_pair cfg st _ name args o2 n2 a2 hstate

/-- Witness for C6: the timeout upstream on a concrete `list_wlans` call. -/
theorem claim_C6_witness :
    ("list_wlans" ∈ toolsNet.map ToolDef.name)
  ∧ callToolClientTimeout [("UNIFI_TIMEOUT", "60")] = 30
  ∧ (callToolNet timeoutFail ⟨"https://unifi.local", "admin", "pw"⟩
      none "list_wlans" []).1.is_error = true
  ∧ (callToolNet timeoutFail ⟨"https://unifi.local", "admin", "pw"⟩
      none "list_wlans" []).2.1 = none := by
  have h : ("list_wlans" : String) ∈ toolsNet.map ToolDef.name := by decide
  have c := claim_C6.2 ⟨"https://unifi.local", "admin", "pw"⟩ none "list_wlans" [] h
  exact ⟨h, claim_C6.1 [("UNIFI_TIMEOUT", "60")], c.1, c.2.2.1⟩

/-- A request that faults before any adapter method is invoked produces the
error result with an empty virtualization trace. -/
theorem callToolVirt_clientErr (o : ProxOracle) (name : String) (args : Args)
    (e : String) (h : callToolVirtRun o name args = (.error e, [])) :
    (callToolVirt o name args).1.is_error = true ∧ (callToolVirt o name args).2 = [] := by
  rw [callToolVirt, h]
  exact ⟨rfl, rfl⟩

/-- Home-automation counterpart of `callToolVirt_clientErr`. -/
theorem callToolHA_clientErr (o : HAOracle) (name : String) (args : Args)
    (e : String) (h : callToolHARun o name args = (.error e, [])) :
    (callToolHA o name args).1.is_error = true ∧ (callToolHA o name args).2 = [] := by
  rw [callToolHA, h]
  exact ⟨rfl, rfl⟩

/-- **C1**. For every dispatched tool of the virtualization and
home-automation servers, if the argument mapping lacks a property that the
tool's declared input schema marks required, the dispatch returns an error
result (`is_error` true) and no backend adapter method is ever invoked (the
adapter trace is empty): the `arguments[...]` reads precede every adapter
call, and the resulting `KeyError` is caught at the dispatcher boundary. -/
theorem claim_C1 :
    (∀ (o : ProxOracle) (name : String) (args : Args) (t : ToolDef) (f : String),
      t ∈ toolsVirt → t.name = name → f ∈ t.inputSchema.required →
      args.lookup f = none →
      (callToolVirt o name args).1.is_error = true ∧ (callToolVirt o name args).2 = [])
  ∧ (∀ (o : HAOracle) (name : String) (args : Args) (t : ToolDef) (f : String),
      t ∈ toolsHA → t.name = name → f ∈ t.inputSchema.required →
      args.lookup f = none →
      (callToolHA o name args).1.is_error = true ∧ (callToolHA o name args).2 = []) := by
  constructor
  · intro o name args t f ht hname hreq hlook
    subst hname
    simp only [toolsVirt, List.mem_cons, List.not_mem_nil, or_false] at ht
    rcases ht with rfl | rfl | rfl | rfl | rfl | rfl | rfl | rfl
    · simp [toolListNodes] at hreq
    · simp only [toolListVms, List.mem_cons, List.not_mem_nil, or_false] at hreq
      subst hreq
      have hget : argsGet args "node" = Except.error "\x27node\x27" := by
        rw [argsGet, hlook]; rfl
      exact callToolVirt_clientErr o _ args _
        (by simp [callToolVirtRun, toolListVms, hget] <;> rfl)
    · simp only [toolListContainers, List.mem_cons, List.not_mem_nil, or_false] at hreq
      subst hreq
      have hget : argsGet args "node" = Except.error "\x27node\x27" := by
        rw [argsGet, hlook]; rfl
      exact callToolVirt_clientErr o _ args _
        (by simp [callToolVirtRun, toolListContainers, hget] <;> rfl)
    · simp only [toolStartVm, List.mem_cons, List.not_mem_nil, or_false] at hreq
      rcases hreq with rfl | rfl
      · have hget : argsGet args "node" = Except.error "\x27node\x27" := by
          rw [argsGet, hlook]; rfl
        exact callToolVirt_clientErr o _ args _
          (by simp [callToolVirtRun, toolStartVm, hget] <;> rfl)
      · have hgetv : argsGet args "vmid" = Except.error "\x27vmid\x27" := by
          rw [argsGet, hlook]; rfl
        cases hn : argsGet args "node" with
        | error e =>
          exact callToolVirt_clientErr o _ args e
            (by simp [callToolVirtRun, toolStartVm, hn] <;> rfl)
        | ok node =>
          exact callToolVirt_clientErr o _ args _
            (by simp [callToolVirtRun, toolStartVm, hn, hgetv] <;> rfl)
    · simp only [toolStopVm, List.mem_cons, List.not_mem_nil, or_false] at hreq
      rcases hreq with rfl | rfl
      · have hget : argsGet args "node" = Except.error "\x27node\x27" := by
          rw [argsGet, hlook]; rfl
        exact callToolVirt_clientErr o _ args _
          (by simp [callToolVirtRun, toolStopVm, hget] <;> rfl)
      · have hgetv : argsGet args "vmid" = Except.error "\x27vmid\x27" := by
          rw [argsGet, hlook]; rfl
        cases hn : argsGet args "node" with
        | error e =>
          exact callToolVirt_clientErr o _ args e
            (by simp [callToolVirtRun, toolStopVm, hn] <;> rfl)
        | ok node =>
          exact callToolVirt_clientErr o _ args _
            (by simp [callToolVirtRun, toolStopVm, hn, hgetv] <;> rfl)
    · simp only [toolRebootVm, List.mem_cons, List.not_mem_nil, or_false] at hreq
      rcases hreq with rfl | rfl
      · have hget : argsGet args "node" = Except.error "\x27node\x27" := by
          rw [argsGet, hlook]; rfl
        exact callToolVirt_clientErr o _ args _
          (by simp [callToolVirtRun, toolRebootVm, hget] <;> rfl)
      · have hgetv : argsGet args "vmid" = Except.error "\x27vmid\x27" := by
          rw [argsGet, hlook]; rfl
        cases hn : argsGet args "node" with
        | error e =>
          exact callToolVirt_clientErr o _ args e
            (by simp [callToolVirtRun, toolRebootVm, hn] <;> rfl)
        | ok node =>
          exact callToolVirt_clientErr o _ args _
            (by simp [callToolVirtRun, toolRebootVm, hn, hgetv] <;> rfl)
    · simp only [toolVmStatus, List.mem_cons, List.not_mem_nil, or_false] at hreq
      rcases hreq with rfl | rfl
      · have hget : argsGet args "node" = Except.error "\x27node\x27" := by
          rw [argsGet, hlook]; rfl
        exact callToolVirt_clientErr o _ args _
          (by simp [callToolVirtRun, toolVmStatus, hget] <;> rfl)
      · have hgetv : argsGet args "vmid" = Except.error "\x27vmid\x27" := by
          rw [argsGet, hlook]; rfl
        cases hn : argsGet args "node" with
        | error e =>
          exact callToolVirt_clientErr o _ args e
            (by simp [callToolVirtRun, toolVmStatus, hn] <;> rfl)
        | ok node =>
          exact callToolVirt_clientErr o _ args _
            (by simp [callToolVirtRun, toolVmStatus, hn, hgetv] <;> rfl)
    · simp only [toolCreateSnapshot, List.mem_cons, List.not_mem_nil, or_false] at hreq
      rcases hreq with rfl | rfl | rfl
      · have hget : argsGet args "node" = Except.error "\x27node\x27" := by
          rw [argsGet, hlook]; rfl
        exact callToolVirt_clientErr o _ args _
          (by simp [callToolVirtRun, toolCreateSnapshot, hget] <;> rfl)
      · have hgetv : argsGet args "vmid" = Except.error "\x27vmid\x27" := by
          rw [argsGet, hlook]; rfl
        cases hn : argsGet args "node" with
        | error e =>
          exact callToolVirt_clientErr o _ args e
            (by simp [callToolVirtRun, toolCreateSnapshot, hn] <;> rfl)
        | ok node =>
          exact callToolVirt_clientErr o _ args _
            (by simp [callToolVirtRun, toolCreateSnapshot, hn, hgetv] <;> rfl)
      · have hgets : argsGet args "snapname" = Except.error "\x27snapname\x27" := by
          rw [argsGet, hlook]; rfl
        cases hn : argsGet args "node" with
        | error e =>
          exact callToolVirt_clientErr o _ args e
            (by simp [callToolVirtRun, toolCreateSnapshot, hn] <;> rfl)
        | ok node =>
          cases hv : argsGet args "vmid" with
          | error e =>
            exact callToolVirt_clientErr o _ args e
              (by simp [callToolVirtRun, toolCreateSnapshot, hn, hv] <;> rfl)
          | ok vmid =>
            exact callToolVirt_clientErr o _ args _
              (by simp [callToolVirtRun, toolCreateSnapshot, hn, hv, hgets] <;> rfl)
  · intro o name args t f ht hname hreq hlook
    subst hname
    simp only [toolsHA, List.mem_cons, List.not_mem_nil, or_false] at ht
    rcases ht with rfl | rfl | rfl | rfl | rfl | rfl | rfl
    · simp [toolListEntities] at hreq
    · simp only [toolGetEntityState, List.mem_cons, List.not_mem_nil, or_false] at hreq
      subst hreq
      have hget : argsGet args "entity_id" = Except.error "\x27entity_id\x27" := by
        rw [argsGet, hlook]; rfl
      exact callToolHA_clientErr o _ args _
        (by simp [callToolHARun, toolGetEntityState, hget] <;> rfl)
    · simp only [toolTurnOn, List.mem_cons, List.not_mem_nil, or_false] at hreq
      subst hreq
      have hget : argsGet args "entity_id" = Except.error "\x27entity_id\x27" := by
        rw [argsGet, hlook]; rfl
      exact callToolHA_clientErr o _ args _
        (by simp [callToolHARun, toolTurnOn, hget] <;> rfl)
    · simp only [toolTurnOff, List.mem_cons, List.not_mem_nil, or_false] at hreq
      subst hreq
      have hget : argsGet args "entity_id" = Except.error "\x27entity_id\x27" := by
        rw [argsGet, hlook]; rfl
      exact callToolHA_clientErr o _ args _
        (by simp [callToolHARun, toolTurnOff, hget] <;> rfl)
    · simp only [toolSetTemperature, List.mem_cons, List.not_mem_nil, or_false] at hreq
      rcases hreq with rfl | rfl
      · have hget : argsGet args "entity_id" = Except.error "\x27entity_id\x27" := by
          rw [argsGet, hlook]; rfl
        exact callToolHA_clientErr o _ args _
          (by simp [callToolHARun, toolSetTemperature, hget] <;> rfl)
      · have hgett : argsGet args "temperature" = Except.error "\x27temperature\x27" := by
          rw [argsGet, hlook]; rfl
        cases he : argsGet args "entity_id" with
        | error e =>
          exact callToolHA_clientErr o _ args e
            (by simp [callToolHARun, toolSetTemperature, he] <;> rfl)
        | ok eid =>
          exact callToolHA_clientErr o _ args _
            (by simp [callToolHARun, toolSetTemperature, he, hgett] <;> rfl)
    · simp only [toolTriggerAutomation, List.mem_cons, List.not_mem_nil, or_false] at hreq
      subst hreq
      have hget : argsGet args "automation_id" = Except.error "\x27automation_id\x27" := by
        rw [argsGet, hlook]; rfl
      exact callToolHA_clientErr o _ args _
        (by simp [callToolHARun, toolTriggerAutomation, hget] <;> rfl)
    · simp [toolListServices] at hreq

/-- A Home Assistant backend whose every method raises with message `m`. -/
def haFailOracle (m : String) : HAOracle :=
  ⟨.error m, fun _ => .error m, fun _ _ _ => .error m, .error m⟩

/-- Witness for C1: `list_vms` without `node`, and `set_temperature` with
`entity_id` but without `temperature`. -/
theorem claim_C1_witness :
    (toolListVms ∈ toolsVirt)
  ∧ ("node" ∈ toolListVms.inputSchema.required)
  ∧ (callToolVirt (proxFailOracle "never") "list_vms" []).1.is_error = true
  ∧ (callToolVirt (proxFailOracle "never") "list_vms" []).2 = []
  ∧ (toolSetTemperature ∈ toolsHA)
  ∧ ("temperature" ∈ toolSetTemperature.inputSchema.required)
  ∧ (callToolHA (haFailOracle "never") "set_temperature"
      [("entity_id", Json.str "climate.kitchen")]).1.is_error = true
  ∧ (callToolHA (haFailOracle "never") "set_temperature"
      [("entity_id", Json.str "climate.kitchen")]).2 = [] := by
  have hm1 : toolListVms ∈ toolsVirt := by simp [toolsVirt]
  have hr1 : "node" ∈ toolListVms.inputSchema.required := by simp [toolListVms]
  have hm2 : toolSetTemperature ∈ toolsHA := by simp [toolsHA]
  have hr2 : "temperature" ∈ toolSetTemperature.inputSchema.required := by
    simp [toolSetTemperature]
  have c1 := claim_C1.1 (proxFailOracle "never") "list_vms" [] toolListVms "node"
    hm1 rfl hr1 rfl
  have c2 := claim_C1.2 (haFailOracle "never") "set_temperature"
    [("entity_id", Json.str "climate.kitchen")] toolSetTemperature "temperature"
    hm2 rfl hr2 (by simp [List.lookup])
  exact ⟨hm1, hr1, c1.1, c1.2, hm2, hr2, c2.1, c2.2⟩

/-- **C8**. The `list_entities` summary enumerates at most the first 50
entities matching the domain filter — it is fully determined by the first 50
matching entities together with the total matching count — and when more than
50 match, it ends with a tail line reporting exactly `total - 50` omitted
entities. -/
theorem claim_C8 :
    (∀ (df : Json) (s1 s2 : List Json),
       (filterEntities df s1).take 50 = (filterEntities df s2).take 50 →
       (filterEntities df s1).length = (filterEntities df s2).length →
       listEntitiesSummary s1 df = listEntitiesSummary s2 df)
  ∧ (∀ (df : Json) (s : List Json),
       50 < (filterEntities df s).length →
       ∃ p, listEntitiesSummary s df
         = p ++ ("\n... and " ++ toString ((filterEntities df s).length - 50)
                 ++ " more entities")) := by
  constructor
  · intro df s1 s2 ht hl
    simp only [listEntitiesSummary]
    rw [ht, hl]
  · intro df s h
    simp only [listEntitiesSummary]
    rw [if_pos h]
    exact ⟨_, rfl⟩

/-- A sample entity state. -/
def entLightOn : Json :=
  Json.obj [("entity_id", Json.str "light.a"), ("state", Json.str "on")]

/-- A second, different sample entity state. -/
def entSwitchOff : Json :=
  Json.obj [("entity_id", Json.str "switch.b"), ("state", Json.str "off")]

/-- 51 identical entities. -/
def states51A : List Json := List.replicate 51 entLightOn

/-- The same first 50 entities, with a different 51st. -/
def states51B : List Json := List.replicate 50 entLightOn ++ [entSwitchOff]

/-- Witness for C8: two 51-entity lists agreeing on the first 50 produce the
same summary (the 51st entity is not enumerated), and the summary of a
51-entity list ends with the `... and 1 more entities` tail. -/
theorem claim_C8_witness :
    (filterEntities Json.null states51A).take 50 = (filterEntities Json.null states51B).take 50
  ∧ (filterEntities Json.null states51A).length = (filterEntities Json.null states51B).length
  ∧ 50 < (filterEntities Json.null states51A).length
  ∧ listEntitiesSummary states51A Json.null = listEntitiesSummary states51B Json.null
  ∧ ∃ p, listEntitiesSummary states51A Json.null
      = p ++ ("\n... and " ++ toString ((filterEntities Json.null states51A).length - 50)
              ++ " more entities") := by
  refine ⟨rfl, rfl, by norm_num [filterEntities, Json.truthy, states51A], ?_, ?_⟩
  · exact claim_C8.1 Json.null states51A states51B rfl rfl
  · exact claim_C8.2 Json.null states51A
      (by norm_num [filterEntities, Json.truthy, states51A])

end MasterStack
